import Mathlib

/-!
A shallow embedding of the HoTT telemetry driver
(`src/main/telemetry/hott.c`) and proofs about it.

Modelling conventions:
* C `uint8_t` / `uint16_t` / `uint32_t` values are `Nat` with explicit
  `% 256`, `% 65536`, `% 2^32` where conversion or overflow happens.
* C signed integer arithmetic is `Int`, with `Int.tdiv` / `Int.tmod` for
  `/` and `%` (C truncates toward zero), `Int.fdiv` for `>>` on a
  possibly negative value (arithmetic shift), and `Int.emod` for the
  two's-complement low bits taken by a conversion to an unsigned type.
* C `float` inputs (`getEstimatedActualPosition`, `getEstimatedActualVelocity`)
  are modelled over `ℚ`, with a cast to `int32_t` as truncation toward zero.
* The serial transport is a pair of byte lists: `rxQueue` (bytes waiting to
  be read) and `txSent` (bytes written so far, oldest first).
* Static/global variables of the C file become fields of `HottDriverState`;
  external sensor reads become fields of `HottEnv`.
-/

namespace Hott

/-- uint32 modulus, for `timeUs_t` wrap-around arithmetic. -/
def U32 : Nat := 2 ^ 32

/-- C unsigned 32-bit subtraction `a - b` (wraps modulo `2^32`). -/
def u32sub (a b : Nat) : Nat := (a % U32 + U32 - b % U32) % U32

/-- Conversion of a C signed value to `uint8_t`: the low byte, two's complement. -/
def byteOfInt (x : Int) : Nat := (x.emod 256).toNat

/-- C arithmetic right shift by 8 of a (possibly negative) signed value. -/
def sar8 (x : Int) : Int := x.fdiv 256

/-- Truncation toward zero of a rational, as a C cast from `float` to `int32_t`. -/
def cTrunc (q : ℚ) : Int := q.num.tdiv q.den

-- Constants from hott.c (lines 109-113).
def HOTT_RX_SCHEDULE : Nat := 4000
def HOTT_TX_SCHEDULE : Nat := 5000
def HOTT_TX_DELAY_US : Nat := 2000
def MILLISECONDS_IN_A_SECOND : Nat := 1000

-- Constants from hott.c (lines 94-96, textmode build).
def HOTT_TEXTMODE_RX_SCHEDULE : Nat := 5000
def HOTT_TEXTMODE_TX_DELAY_US : Nat := 1000

/-- Request-frame marker for binary mode.  The value 0x80 is documented in
hott.c itself (comment at lines 584-590: the first byte is only ever
0x80, binary mode, or 0x7F, text mode); the macro lives in a header
outside the provided sources. -/
def HOTT_BINARY_MODE_REQUEST_ID : Nat := 0x80

/-- Request-frame marker for text mode (0x7F, same source comment). -/
def HOTT_TEXT_MODE_REQUEST_ID : Nat := 0x7F

/-- Modelled from the spec: sensor-type identifier of the generic (EAM)
telemetry record; the macro `HOTT_TELEMETRY_EAM_SENSOR_ID` is defined in a
header outside the provided sources.  The binary request address for this
record is 0x8E (hott.c line 495), which is the sensor id on the wire. -/
def HOTT_TELEMETRY_EAM_SENSOR_ID : Nat := 0x8E

/-- Modelled from the spec: sensor-type identifier of the GPS record
(binary request address 0x8A, hott.c line 483). -/
def HOTT_TELEMETRY_GPS_SENSOR_ID : Nat := 0x8A

/-- Modelled from the spec: text-mode sensor-class value whose top nibble
must match the second request byte (`HOTT_EAM_SENSOR_TEXT_ID`, header
outside the provided sources). -/
def HOTT_EAM_SENSOR_TEXT_ID : Nat := 0xE0

/-- Modelled from the spec: text id of the GPS sensor (header constant). -/
def HOTT_GPS_SENSOR_TEXT_ID : Nat := 0xA0

/-- Modelled from the spec: start marker of the text-grid record. -/
def HOTT_TEXTMODE_START : Nat := 0x7B

/-- Modelled from the spec: stop marker of the text-grid record. -/
def HOTT_TEXTMODE_STOP : Nat := 0x7D

/-- Modelled from the spec: escape tag used by the text-mode session. -/
def HOTT_TEXTMODE_ESC : Nat := 0x01

/-- Modelled from the spec: the text grid is rows x columns of characters;
the dimension macros live in a header outside the provided sources. -/
def HOTT_TEXTMODE_DISPLAY_ROWS : Nat := 8

/-- Modelled from the spec: number of columns of the text grid. -/
def HOTT_TEXTMODE_DISPLAY_COLUMNS : Nat := 21

/-- Altitude offset: a value of 500 encodes 0 m (hott.c line 316 comment);
macro `HOTT_GPS_ALTITUDE_OFFSET` is in a header outside the provided sources. -/
def HOTT_GPS_ALTITUDE_OFFSET : Int := 500

/-- Modelled from the spec: the fixed sub-degree divisor splitting a raw
coordinate into whole degrees and a sub-degree remainder.  Coordinates are
stored in 1e-7 degree units, so `GPS_DEGREES_DIVIDER` is 10^7 (macro from
a header outside the provided sources). -/
def GPS_DEGREES_DIVIDER : Int := 10000000

/-- Modelled from the spec: EAM alarm-1 flag for battery 1
(`HOTT_EAM_ALARM1_FLAG_BATTERY_1`, header outside the provided sources). -/
def HOTT_EAM_ALARM1_FLAG_BATTERY_1 : Nat := 0x80

/-- `HOTT_EAM_ALARM1_FLAG_NONE` (same header): no alarm. -/
def HOTT_EAM_ALARM1_FLAG_NONE : Nat := 0

/-- `hottState_e` (hott.c lines 101-107). -/
inductive HottStateE where
  | HOTT_WAITING_FOR_REQUEST
  | HOTT_RECEIVING_REQUEST
  | HOTT_WAITING_FOR_TX_WINDOW
  | HOTT_TRANSMITTING
  | HOTT_ENDING_TRANSMISSION
deriving DecidableEq, Repr

export HottStateE (HOTT_WAITING_FOR_REQUEST HOTT_RECEIVING_REQUEST
  HOTT_WAITING_FOR_TX_WINDOW HOTT_TRANSMITTING HOTT_ENDING_TRANSMISSION)

/-- `batteryState_e` (sensors/battery.h, external interface). -/
inductive BatteryState where
  | BATTERY_OK
  | BATTERY_WARNING
  | BATTERY_CRITICAL
  | BATTERY_NOT_PRESENT
deriving DecidableEq, Repr

/-- `HOTT_EAM_MSG_t`: the fields of the generic telemetry record that
hott.c reads or writes.  The record's remaining protocol fields are zeroed
by `initialiseEAMMessage`'s memset and never touched afterwards, so they
are constant and omitted from the model. -/
structure HOTT_EAM_MSG_t where
  start_byte : Nat
  eam_sensor_id : Nat
  sensor_id : Nat
  warning_beeps : Nat
  alarm_invers1 : Nat
  main_voltage_L : Nat
  main_voltage_H : Nat
  batt1_voltage_L : Nat
  batt1_voltage_H : Nat
  batt_cap_L : Nat
  batt_cap_H : Nat
  current_L : Nat
  current_H : Nat
  altitude_L : Nat
  altitude_H : Nat
  climbrate_L : Nat
  climbrate_H : Nat
  climbrate3s : Nat
  stop_byte : Nat
deriving DecidableEq, Repr

/-- `HOTT_GPS_MSG_t`: the fields of the GPS record that hott.c reads or
writes (remaining fields are zeroed at initialisation and never touched). -/
structure HOTT_GPS_MSG_t where
  start_byte : Nat
  gps_sensor_id : Nat
  sensor_id : Nat
  gps_satelites : Nat
  gps_fix_char : Nat
  pos_NS : Nat
  pos_NS_dm_L : Nat
  pos_NS_dm_H : Nat
  pos_NS_sec_L : Nat
  pos_NS_sec_H : Nat
  pos_EW : Nat
  pos_EW_dm_L : Nat
  pos_EW_dm_H : Nat
  pos_EW_sec_L : Nat
  pos_EW_sec_H : Nat
  gps_speed_L : Nat
  gps_speed_H : Nat
  home_distance_L : Nat
  home_distance_H : Nat
  altitude_L : Nat
  altitude_H : Nat
  climbrate_L : Nat
  climbrate_H : Nat
  climbrate3s : Nat
  home_direction : Nat
  stop_byte : Nat
deriving DecidableEq, Repr

/-- `hottTextModeMsg_t`: start, esc, warning, an 8x21 character grid, stop. -/
structure HottTextModeMsg where
  start : Nat
  esc : Nat
  warning : Nat
  txt : List (List Nat)
  stop : Nat
deriving DecidableEq, Repr

/-- External inputs of one poll invocation: sensor accessors, flight state
flags, the wall clock and configuration, all read-only for hott.c. -/
structure HottEnv where
  sensorGps : Bool            -- sensors(SENSOR_GPS)
  gpsEstimatedFix : Bool      -- STATE(GPS_ESTIMATED_FIX)
  stateGpsFix : Bool          -- STATE(GPS_FIX)
  gpsFixIs3D : Bool           -- gpsSol.fixType == GPS_FIX_3D
  gpsNumSat : Nat             -- gpsSol.numSat (uint8)
  gpsLat : Int                -- gpsSol.llh.lat, 1e-7 deg
  gpsLon : Int                -- gpsSol.llh.lon, 1e-7 deg
  gpsGroundSpeed : Nat        -- gpsSol.groundSpeed, cm/s (uint16)
  gpsAltCm : Int              -- gpsSol.llh.alt, cm (int32)
  gpsDistanceToHome : Nat     -- GPS_distanceToHome
  gpsDirectionToHome : Nat    -- GPS_directionToHome
  vbat : Nat                  -- getBatteryVoltage(), 10 mV units
  amperage : Int              -- getAmperage(), 10 mA units
  mAhDrawn : Int              -- getMAhDrawn(), mAh
  estPosZ : ℚ                 -- getEstimatedActualPosition(Z), cm (float)
  estVelZ : ℚ                 -- getEstimatedActualVelocity(Z), cm/s (float)
  millis : Nat                -- millis(), wall clock in ms (uint32)
  hottAlarmSoundInterval : Nat -- telemetryConfig()->hottAlarmSoundInterval
  batteryState : BatteryState -- getBatteryState()
deriving DecidableEq, Repr

/-- All mutable state of hott.c: file-level statics plus the statics local
to `handleHoTTTelemetry`, `hottSendTelemetryDataByte` and
`updateAlarmBatteryStatus`, the owned record buffers, and the two ends of
the serial transport. -/
structure HottDriverState where
  hottTelemetryEnabled : Bool
  hottState : HottStateE
  hottStateChangeUs : Nat        -- timeUs_t (uint32)
  hottTxMsg : List Nat           -- remaining queued payload bytes (ptr+size view)
  hottTxMsgCrc : Nat             -- uint8
  byteSentTimeUs : Nat           -- static in hottSendTelemetryDataByte
  hottRequestBuffer0 : Nat       -- hottRequestBuffer[0]
  hottRequestBuffer1 : Nat       -- hottRequestBuffer[1]
  hottRequestBufferPtr : Nat     -- static int hottRequestBufferPtr
  rxQueue : List Nat             -- bytes waiting on the serial port
  txSent : List Nat              -- bytes written to the serial port so far
  rxSchedule : Nat               -- static uint32_t rxSchedule
  txDelayUs : Nat                -- static uint32_t txDelayUs
  textmodeIsAlive : Bool
  setEscBack : Bool              -- static in processHottTextModeRequest
  lastHottAlarmSoundTime : Nat   -- static in updateAlarmBatteryStatus
  hottGPSMessage : HOTT_GPS_MSG_t
  hottEAMMessage : HOTT_EAM_MSG_t
  hottTextModeMessage : HottTextModeMsg
deriving DecidableEq, Repr

/-- `hottSwitchState` (hott.c lines 151-157): the change timestamp is
updated only when the state actually changes. -/
def hottSwitchState (s : HottDriverState) (newState : HottStateE)
    (currentTimeUs : Nat) : HottDriverState :=
  if s.hottState ≠ newState then
    { s with hottState := newState, hottStateChangeUs := currentTimeUs }
  else s

/-- `initialiseEAMMessage` (hott.c lines 159-166): zero the record, then
set markers and sensor ids. -/
def initialiseEAMMessage : HOTT_EAM_MSG_t :=
  { start_byte := 0x7C
    eam_sensor_id := HOTT_TELEMETRY_EAM_SENSOR_ID
    sensor_id := HOTT_EAM_SENSOR_TEXT_ID
    warning_beeps := 0
    alarm_invers1 := 0
    main_voltage_L := 0, main_voltage_H := 0
    batt1_voltage_L := 0, batt1_voltage_H := 0
    batt_cap_L := 0, batt_cap_H := 0
    current_L := 0, current_H := 0
    altitude_L := 0, altitude_H := 0
    climbrate_L := 0, climbrate_H := 0
    climbrate3s := 0
    stop_byte := 0x7D }

/-- `initialiseGPSMessage` (hott.c lines 176-183). -/
def initialiseGPSMessage : HOTT_GPS_MSG_t :=
  { start_byte := 0x7C
    gps_sensor_id := HOTT_TELEMETRY_GPS_SENSOR_ID
    sensor_id := HOTT_GPS_SENSOR_TEXT_ID
    gps_satelites := 0
    gps_fix_char := 0
    pos_NS := 0, pos_NS_dm_L := 0, pos_NS_dm_H := 0
    pos_NS_sec_L := 0, pos_NS_sec_H := 0
    pos_EW := 0, pos_EW_dm_L := 0, pos_EW_dm_H := 0
    pos_EW_sec_L := 0, pos_EW_sec_H := 0
    gps_speed_L := 0, gps_speed_H := 0
    home_distance_L := 0, home_distance_H := 0
    altitude_L := 0, altitude_H := 0
    climbrate_L := 0, climbrate_H := 0
    climbrate3s := 0
    home_direction := 0
    stop_byte := 0x7D }

/-- `initialiseTextmodeMessage` (hott.c lines 142-148); the grid starts
zeroed (the message is a zero-initialised static). -/
def initialiseTextmodeMessage : HottTextModeMsg :=
  { start := HOTT_TEXTMODE_START
    esc := HOTT_EAM_SENSOR_TEXT_ID
    warning := 0
    txt := List.replicate HOTT_TEXTMODE_DISPLAY_ROWS
      (List.replicate HOTT_TEXTMODE_DISPLAY_COLUMNS 0)
    stop := HOTT_TEXTMODE_STOP }

/-- One axis of `addGPSCoordinates` (hott.c lines 198-223): split a raw
1e-7 degree coordinate into whole degrees, minutes and a ten-thousandths-
of-a-minute remainder, pack `deg*100+min` into a 16-bit value and split
both packed values into low/high bytes.  The C locals are `int16_t deg`
(the quotient always fits), `int32_t sec`, `int8_t min` (always fits) and
`uint16_t degMin` (conversion takes the value mod 2^16). -/
def encodeGpsAxis (coordinate : Int) :
    Bool × Nat × Nat × Nat × Nat :=
  let deg : Int := coordinate.tdiv GPS_DEGREES_DIVIDER
  let sec0 : Int := (coordinate - deg * GPS_DEGREES_DIVIDER) * 6
  let mn : Int := sec0.tdiv 1000000
  let sec : Int := (sec0.tmod 1000000).tdiv 100
  let degMin : Nat := ((deg * 100 + mn).emod 65536).toNat
  (coordinate < 0,                 -- pos_NS / pos_EW hemisphere flag
   degMin % 256,                   -- dm_L  (uint16 truncated to uint8)
   degMin / 256 % 256,             -- dm_H  (degMin >> 8, to uint8)
   byteOfInt sec,                  -- sec_L (int32 truncated to uint8)
   byteOfInt (sar8 sec))           -- sec_H (sec >> 8, to uint8)

/-- `addGPSCoordinates` (hott.c lines 198-223): both axes use the same
arithmetic; the latitude fills the NS fields, the longitude the EW fields. -/
def addGPSCoordinates (msg : HOTT_GPS_MSG_t) (latitude longitude : Int) :
    HOTT_GPS_MSG_t :=
  let ns := encodeGpsAxis latitude
  let ew := encodeGpsAxis longitude
  { msg with
    pos_NS := if ns.1 then 1 else 0
    pos_NS_dm_L := ns.2.1
    pos_NS_dm_H := ns.2.2.1
    pos_NS_sec_L := ns.2.2.2.1
    pos_NS_sec_H := ns.2.2.2.2
    pos_EW := if ew.1 then 1 else 0
    pos_EW_dm_L := ew.2.1
    pos_EW_dm_H := ew.2.2.1
    pos_EW_sec_L := ew.2.2.2.1
    pos_EW_sec_H := ew.2.2.2.2 }

/-- `hottPrepareGPSResponse` (hott.c lines 225-269).  Climb rates are
float expressions cast/assigned to integers; without a fix the function
returns early, leaving the remaining (reused) fields untouched. -/
def hottPrepareGPSResponse (env : HottEnv) (msg0 : HOTT_GPS_MSG_t) :
    HOTT_GPS_MSG_t :=
  let climbrate : Int := cTrunc (max 0 (env.estVelZ + 30000))
  let climbrate3s : Int := cTrunc (max 0 (3 * env.estVelZ / 100 + 120))
  let msg1 : HOTT_GPS_MSG_t :=
    { msg0 with
      gps_satelites := env.gpsNumSat % 256
      climbrate_L := byteOfInt climbrate
      climbrate_H := byteOfInt (sar8 climbrate)
      climbrate3s := byteOfInt climbrate3s }
  if ¬(env.stateGpsFix ∨ env.gpsEstimatedFix) then
    { msg1 with gps_fix_char := 0x2D }      -- GPS_FIX_CHAR_NONE = '-'
  else
    let msg2 := { msg1 with
      gps_fix_char := if env.gpsFixIs3D then 0x33 else 0x32 }  -- '3' / '2'
    let msg3 := addGPSCoordinates msg2 env.gpsLat env.gpsLon
    let speed : Nat := env.gpsGroundSpeed * 36 / 1000
    let hottGpsAltitude : Nat :=
      ((env.gpsAltCm.tdiv 100 + HOTT_GPS_ALTITUDE_OFFSET).emod 65536).toNat
    { msg3 with
      gps_speed_L := speed % 256
      gps_speed_H := speed / 256 % 256
      home_distance_L := env.gpsDistanceToHome % 256
      home_distance_H := env.gpsDistanceToHome / 256 % 256
      altitude_L := hottGpsAltitude % 256
      altitude_H := hottGpsAltitude / 256 % 256
      home_direction := env.gpsDirectionToHome % 256 }

/-- `updateAlarmBatteryStatus` (hott.c lines 272-287): a wall-clock-gated
alarm check.  Returns the updated record together with the new value of
the static `lastHottAlarmSoundTime`. -/
def updateAlarmBatteryStatus (env : HottEnv) (lastHottAlarmSoundTime : Nat)
    (msg : HOTT_EAM_MSG_t) : HOTT_EAM_MSG_t × Nat :=
  if u32sub env.millis lastHottAlarmSoundTime ≥
      env.hottAlarmSoundInterval * MILLISECONDS_IN_A_SECOND then
    let batteryState := env.batteryState
    if batteryState = BatteryState.BATTERY_WARNING ∨
        batteryState = BatteryState.BATTERY_CRITICAL then
      ({ msg with warning_beeps := 0x10,
                  alarm_invers1 := HOTT_EAM_ALARM1_FLAG_BATTERY_1 },
       env.millis)
    else
      ({ msg with warning_beeps := HOTT_EAM_ALARM1_FLAG_NONE,
                  alarm_invers1 := HOTT_EAM_ALARM1_FLAG_NONE },
       env.millis)
  else (msg, lastHottAlarmSoundTime)

/-- `hottEAMUpdateBattery` (hott.c lines 289-298): the local
`uint8_t vbat_dcv` truncates `getBatteryVoltage() / 10` to a byte. -/
def hottEAMUpdateBattery (env : HottEnv) (lastAlarm : Nat)
    (msg : HOTT_EAM_MSG_t) : HOTT_EAM_MSG_t × Nat :=
  let vbat_dcv : Nat := env.vbat / 10 % 256
  let msg1 := { msg with
    main_voltage_L := vbat_dcv % 256
    main_voltage_H := vbat_dcv / 256 % 256
    batt1_voltage_L := vbat_dcv % 256
    batt1_voltage_H := vbat_dcv / 256 % 256 }
  updateAlarmBatteryStatus env lastAlarm msg1

/-- `hottEAMUpdateCurrentMeter` (hott.c lines 300-305). -/
def hottEAMUpdateCurrentMeter (env : HottEnv) (msg : HOTT_EAM_MSG_t) :
    HOTT_EAM_MSG_t :=
  let amp : Int := env.amperage.tdiv 10
  { msg with
    current_L := byteOfInt amp
    current_H := byteOfInt (sar8 amp) }

/-- `hottEAMUpdateBatteryDrawnCapacity` (hott.c lines 307-312). -/
def hottEAMUpdateBatteryDrawnCapacity (env : HottEnv)
    (msg : HOTT_EAM_MSG_t) : HOTT_EAM_MSG_t :=
  let mAh : Int := env.mAhDrawn.tdiv 10
  { msg with
    batt_cap_L := byteOfInt mAh
    batt_cap_H := byteOfInt (sar8 mAh) }

/-- `hottEAMUpdateAltitudeAndClimbrate` (hott.c lines 314-326): float
expressions cast to `int32_t` and clamped to a non-negative floor. -/
def hottEAMUpdateAltitudeAndClimbrate (env : HottEnv)
    (msg : HOTT_EAM_MSG_t) : HOTT_EAM_MSG_t :=
  let alt : Int := max 0 (cTrunc (env.estPosZ / 100 + 500))
  let climbrate : Int := max 0 (cTrunc (env.estVelZ + 30000))
  let climbrate3s : Int := max 0 (cTrunc (3 * env.estVelZ / 100 + 120))
  { msg with
    altitude_L := byteOfInt alt
    altitude_H := byteOfInt (sar8 alt)
    climbrate_L := byteOfInt climbrate
    climbrate_H := byteOfInt (sar8 climbrate)
    climbrate3s := byteOfInt climbrate3s }

/-- `hottPrepareEAMResponse` (hott.c lines 328-338): reset the two alarm
fields, then refresh every sensor-derived field. -/
def hottPrepareEAMResponse (env : HottEnv) (lastAlarm : Nat)
    (msg : HOTT_EAM_MSG_t) : HOTT_EAM_MSG_t × Nat :=
  let msg1 := { msg with warning_beeps := 0, alarm_invers1 := 0 }
  let (msg2, lastAlarm2) := hottEAMUpdateBattery env lastAlarm msg1
  let msg3 := hottEAMUpdateCurrentMeter env msg2
  let msg4 := hottEAMUpdateBatteryDrawnCapacity env msg3
  let msg5 := hottEAMUpdateAltitudeAndClimbrate env msg4
  (msg5, lastAlarm2)

/-- Modelled from the spec: the wire image of the EAM record handed to
`hottQueueSendResponse` as `(uint8_t *)&hottEAMMessage, sizeof`.  The
record is a fixed-layout byte structure beginning with the 0x7C start
marker and ending with the 0x7D stop marker; the precise interior order
comes from the struct definition in a header outside the provided
sources. -/
def serializeEAM (m : HOTT_EAM_MSG_t) : List Nat :=
  [m.start_byte, m.eam_sensor_id, m.warning_beeps, m.sensor_id,
   m.alarm_invers1, m.main_voltage_L, m.main_voltage_H,
   m.batt1_voltage_L, m.batt1_voltage_H, m.batt_cap_L, m.batt_cap_H,
   m.current_L, m.current_H, m.altitude_L, m.altitude_H,
   m.climbrate_L, m.climbrate_H, m.climbrate3s, m.stop_byte]

/-- Modelled from the spec: the wire image of the GPS record (start marker
first, stop marker last; interior order from the out-of-tree header). -/
def serializeGPS (m : HOTT_GPS_MSG_t) : List Nat :=
  [m.start_byte, m.gps_sensor_id, m.sensor_id, m.gps_fix_char,
   m.gps_satelites, m.pos_NS, m.pos_NS_dm_L, m.pos_NS_dm_H,
   m.pos_NS_sec_L, m.pos_NS_sec_H, m.pos_EW, m.pos_EW_dm_L,
   m.pos_EW_dm_H, m.pos_EW_sec_L, m.pos_EW_sec_H,
   m.gps_speed_L, m.gps_speed_H, m.home_distance_L, m.home_distance_H,
   m.altitude_L, m.altitude_H, m.climbrate_L, m.climbrate_H,
   m.climbrate3s, m.home_direction, m.stop_byte]

/-- Modelled from the spec: the wire image of the text-grid record
(start, esc, warning, the 8x21 grid row-major, stop). -/
def serializeTextmode (m : HottTextModeMsg) : List Nat :=
  m.start :: m.esc :: m.warning :: (m.txt.flatten ++ [m.stop])

/-- `hottQueueSendResponse` (hott.c lines 387-391): point the single-slot
response queue at a record's bytes. -/
def hottQueueSendResponse (s : HottDriverState) (buffer : List Nat) :
    HottDriverState :=
  { s with hottTxMsg := buffer }

/-- `hottTextmodeStart` (hott.c lines 394-404): switch to the overlay
timing profile (the task-scheduler call is outside this subsystem). -/
def hottTextmodeStart (s : HottDriverState) : HottDriverState :=
  { s with rxSchedule := HOTT_TEXTMODE_RX_SCHEDULE,
           txDelayUs := HOTT_TEXTMODE_TX_DELAY_US }

/-- `hottTextmodeStop` (hott.c lines 406-416): restore the default
timing profile. -/
def hottTextmodeStop (s : HottDriverState) : HottDriverState :=
  { s with rxSchedule := HOTT_RX_SCHEDULE,
           txDelayUs := HOTT_TX_DELAY_US }

/-- `hottTextmodeWriteChar` (hott.c lines 433-439): write one character
into the overlay grid, guarded against out-of-range indices. -/
def hottTextmodeWriteChar (column row : Nat) (c : Nat)
    (msg : HottTextModeMsg) : HottTextModeMsg :=
  if column < HOTT_TEXTMODE_DISPLAY_COLUMNS ∧
      row < HOTT_TEXTMODE_DISPLAY_ROWS then
    if (msg.txt.getD row []).getD column 0 ≠ c then
      { msg with txt := msg.txt.set row ((msg.txt.getD row []).set column c) }
    else msg
  else msg

/-- `processHottTextModeRequest` (hott.c lines 441-469): wake the overlay
profile, check the sensor-class nibble, manage the esc handshake and queue
the text record.  `hottCmsOpen` / `hottSetCmsKey` are external overlay
hooks without effect on this driver's state. -/
def processHottTextModeRequest (s : HottDriverState) (cmd : Nat) :
    Bool × HottDriverState :=
  let s1 := if ¬s.textmodeIsAlive then
      { hottTextmodeStart s with textmodeIsAlive := true }
    else s
  if cmd &&& 0xF0 ≠ HOTT_EAM_SENSOR_TEXT_ID then
    (false, s1)
  else
    let s2 := if s1.setEscBack then
        { s1 with
          hottTextModeMessage :=
            { s1.hottTextModeMessage with esc := HOTT_EAM_SENSOR_TEXT_ID },
          setEscBack := false }
      else s1
    let s3 := if s2.hottTextModeMessage.esc ≠ HOTT_TEXTMODE_ESC then
        s2                                   -- hottCmsOpen(): external
      else { s2 with setEscBack := true }
    (true, hottQueueSendResponse s3 (serializeTextmode s3.hottTextModeMessage))

/-- `processBinaryModeRequest` (hott.c lines 472-502): leave any live
textmode session, then dispatch on the address byte.  0x8A arms the GPS
record when a GPS sensor (or an estimated fix) is available; 0x8E always
arms the EAM record; anything else fails. -/
def processBinaryModeRequest (env : HottEnv) (s : HottDriverState)
    (address : Nat) : Bool × HottDriverState :=
  let s1 := if s.textmodeIsAlive then
      { hottTextmodeStop s with textmodeIsAlive := false }
    else s
  if address = 0x8A then
    if env.sensorGps ∨ env.gpsEstimatedFix then
      let msg := hottPrepareGPSResponse env s1.hottGPSMessage
      let s2 := { s1 with hottGPSMessage := msg }
      (true, hottQueueSendResponse s2 (serializeGPS msg))
    else
      (false, s1)
  else if address = 0x8E then
    let (msg, lastAlarm) :=
      hottPrepareEAMResponse env s1.lastHottAlarmSoundTime s1.hottEAMMessage
    let s2 := { s1 with hottEAMMessage := msg,
                        lastHottAlarmSoundTime := lastAlarm }
    (true, hottQueueSendResponse s2 (serializeEAM msg))
  else
    (false, s1)

/-- `flushHottRxBuffer` (hott.c lines 504-509): read and drop every byte
waiting on the port. -/
def flushHottRxBuffer (s : HottDriverState) : HottDriverState :=
  { s with rxQueue := [] }

/-- `hottSendTelemetryDataByte` (hott.c lines 511-532).  Note that the
static `byteSentTimeUs` is read by the guard but never assigned anywhere
in the file, so it keeps its initial value 0 forever; the model preserves
this faithfully.  Returns true once the CRC byte has been sent. -/
def hottSendTelemetryDataByte (s : HottDriverState) (currentTimeUs : Nat) :
    Bool × HottDriverState :=
  if u32sub currentTimeUs s.byteSentTimeUs < HOTT_TX_DELAY_US then
    (false, s)
  else
    match s.hottTxMsg with
    | [] =>
      (true, { s with txSent := s.txSent ++ [s.hottTxMsgCrc] })
    | b :: rest =>
      (false, { s with
        hottTxMsgCrc := (s.hottTxMsgCrc + b) % 256
        txSent := s.txSent ++ [b]
        hottTxMsg := rest })

/-- The read loop of `HOTT_RECEIVING_REQUEST` (hott.c lines 578-580):
`while (serialRxBytesWaiting(hottPort) && hottRequestBufferPtr < 2)
hottRequestBuffer[hottRequestBufferPtr++] = serialRead(hottPort);`. -/
def readRequestBytes (buf0 buf1 ptr : Nat) :
    List Nat → Nat × Nat × Nat × List Nat
  | [] => (buf0, buf1, ptr, [])
  | b :: rest =>
    if ptr < 2 then
      readRequestBytes (if ptr = 0 then b else buf0)
        (if ptr = 1 then b else buf1) (ptr + 1) rest
    else (buf0, buf1, ptr, b :: rest)

/-- One pass through the `switch (hottState)` statement inside
`handleHoTTTelemetry`'s do-while loop (hott.c lines 562-641).  Returns the
new state together with the `reprocessState` flag. -/
def hottStateStep (env : HottEnv) (s : HottDriverState)
    (currentTimeUs : Nat) : HottDriverState × Bool :=
  match s.hottState with
  | HOTT_WAITING_FOR_REQUEST =>
    if s.rxQueue ≠ [] then
      (hottSwitchState { s with hottRequestBufferPtr := 0 }
        HOTT_RECEIVING_REQUEST currentTimeUs, true)
    else (s, false)
  | HOTT_RECEIVING_REQUEST =>
    if u32sub currentTimeUs s.hottStateChangeUs ≥ s.rxSchedule then
      -- Waiting for too long - resync
      (hottSwitchState (flushHottRxBuffer s) HOTT_WAITING_FOR_REQUEST
        currentTimeUs, false)
    else
      let r := readRequestBytes s.hottRequestBuffer0 s.hottRequestBuffer1
        s.hottRequestBufferPtr s.rxQueue
      let s1 := { s with hottRequestBuffer0 := r.1,
                         hottRequestBuffer1 := r.2.1,
                         hottRequestBufferPtr := r.2.2.1,
                         rxQueue := r.2.2.2 }
      if s1.hottRequestBufferPtr ≥ 2 then
        if s1.hottRequestBuffer0 = 0 ∨
            s1.hottRequestBuffer0 = HOTT_BINARY_MODE_REQUEST_ID then
          -- binary mode, including the 0x00 reading of the 0x80 marker
          let p := processBinaryModeRequest env s1 s1.hottRequestBuffer1
          if p.1 then
            (hottSwitchState p.2 HOTT_WAITING_FOR_TX_WINDOW currentTimeUs,
             true)
          else
            (hottSwitchState p.2 HOTT_WAITING_FOR_REQUEST currentTimeUs,
             true)
        else if s1.hottRequestBuffer0 = HOTT_TEXT_MODE_REQUEST_ID then
          let p := processHottTextModeRequest s1 s1.hottRequestBuffer1
          if p.1 then
            (hottSwitchState p.2 HOTT_WAITING_FOR_TX_WINDOW currentTimeUs,
             true)
          else
            (hottSwitchState p.2 HOTT_WAITING_FOR_REQUEST currentTimeUs,
             true)
        else
          -- Received garbage - resync
          (hottSwitchState (flushHottRxBuffer s1) HOTT_WAITING_FOR_REQUEST
            currentTimeUs, true)
      else (s1, false)
  | HOTT_WAITING_FOR_TX_WINDOW =>
    if u32sub currentTimeUs s.hottStateChangeUs ≥ HOTT_TX_SCHEDULE then
      (hottSwitchState { s with hottTxMsgCrc := 0 } HOTT_TRANSMITTING
        currentTimeUs, false)
    else (s, false)
  | HOTT_TRANSMITTING =>
    let r := hottSendTelemetryDataByte s currentTimeUs
    if r.1 then
      (hottSwitchState r.2 HOTT_ENDING_TRANSMISSION currentTimeUs, false)
    else (r.2, false)
  | HOTT_ENDING_TRANSMISSION =>
    if u32sub currentTimeUs s.hottStateChangeUs ≥ s.txDelayUs then
      (hottSwitchState (flushHottRxBuffer s) HOTT_WAITING_FOR_REQUEST
        currentTimeUs, true)
    else (s, false)

/-- The do-while loop of `handleHoTTTelemetry`, driven by fuel.  The loop
re-runs the switch only while `reprocessState` is set. -/
def handleAux (env : HottEnv) : Nat → HottDriverState → Nat →
    HottDriverState
  | 0, s, _ => s
  | fuel + 1, s, currentTimeUs =>
    let r := hottStateStep env s currentTimeUs
    if r.2 then handleAux env fuel r.1 currentTimeUs else r.1

/-- `handleHoTTTelemetry` (hott.c lines 549-643).  Every loop iteration
that sets `reprocessState` either consumes input bytes or moves to a
branch that clears the flag within two further iterations, so
`2 * |rxQueue| + 8` iterations always reach the loop's exit; the fuelled
model therefore agrees with the C do-while loop. -/
def handleHoTTTelemetry (env : HottEnv) (s : HottDriverState)
    (currentTimeUs : Nat) : HottDriverState :=
  if ¬s.hottTelemetryEnabled then s
  else handleAux env (2 * s.rxQueue.length + 8) s currentTimeUs

/-- Repeated poll invocations at the given sequence of timestamps. -/
def runPoll (env : HottEnv) : HottDriverState → List Nat → HottDriverState
  | s, [] => s
  | s, t :: ts => runPoll env (handleHoTTTelemetry env s t) ts

/-- Read a little-endian byte pair back as a signed 16-bit value
(two's complement). -/
def signed16 (v : Nat) : Int :=
  if v < 32768 then (v : Int) else (v : Int) - 65536

/-- Reconstruction of a coordinate (in degrees, over `ℚ`) from the packed
fields, following the claim's reading of the layout: the second byte pair
is taken as hundredths of arcseconds. -/
def reconSecondsHundredths (p : Bool × Nat × Nat × Nat × Nat) : ℚ :=
  let dm : Int := signed16 (p.2.1 + 256 * p.2.2.1)
  let sc : Int := signed16 (p.2.2.2.1 + 256 * p.2.2.2.2)
  (dm.tdiv 100 : ℚ) + (dm.tmod 100 : ℚ) / 60 + (sc : ℚ) / 360000

/-- Reconstruction of a coordinate (in degrees, over `ℚ`) from the packed
fields with the unit the source actually computes: the second byte pair
holds ten-thousandths of an arcminute. -/
def reconMinuteTenThousandths (p : Bool × Nat × Nat × Nat × Nat) : ℚ :=
  let dm : Int := signed16 (p.2.1 + 256 * p.2.2.1)
  let sc : Int := signed16 (p.2.2.2.1 + 256 * p.2.2.2.2)
  (dm.tdiv 100 : ℚ) + (dm.tmod 100 : ℚ) / 60 + (sc : ℚ) / 600000

/-- A concrete sample of the external inputs. -/
def sampleEnv : HottEnv :=
  { sensorGps := false, gpsEstimatedFix := false, stateGpsFix := false,
    gpsFixIs3D := false, gpsNumSat := 0, gpsLat := 0, gpsLon := 0,
    gpsGroundSpeed := 0, gpsAltCm := 0, gpsDistanceToHome := 0,
    gpsDirectionToHome := 0, vbat := 1150, amperage := 0, mAhDrawn := 0,
    estPosZ := 0, estVelZ := 0, millis := 0, hottAlarmSoundInterval := 5,
    batteryState := BatteryState.BATTERY_OK }

/-- The driver state right after initialisation: every C static at its
initializer, records as built by `initialiseMessages`, port open. -/
def initState : HottDriverState :=
  { hottTelemetryEnabled := true
    hottState := HOTT_WAITING_FOR_REQUEST
    hottStateChangeUs := 0
    hottTxMsg := []
    hottTxMsgCrc := 0
    byteSentTimeUs := 0
    hottRequestBuffer0 := 0
    hottRequestBuffer1 := 0
    hottRequestBufferPtr := 0
    rxQueue := []
    txSent := []
    rxSchedule := HOTT_RX_SCHEDULE
    txDelayUs := HOTT_TX_DELAY_US
    textmodeIsAlive := false
    setEscBack := false
    lastHottAlarmSoundTime := 0
    hottGPSMessage := initialiseGPSMessage
    hottEAMMessage := initialiseEAMMessage
    hottTextModeMessage := initialiseTextmodeMessage }

end Hott

namespace Hott

lemma readRequestBytes_done (b0 b1 p : Nat) (l : List Nat) (hp : 2 ≤ p) :
    readRequestBytes b0 b1 p l = (b0, b1, p, l) := by
  cases l with
  | nil => simp [readRequestBytes]
  | cons x rest => simp [readRequestBytes]; omega

lemma readRequestBytes_two (a b x y : Nat) (rest : List Nat) :
    readRequestBytes a b 0 (x :: y :: rest) = (x, y, 2, rest) := by
  simp [readRequestBytes, readRequestBytes_done]

lemma readRequestBytes_one (a b x : Nat) :
    readRequestBytes a b 0 [x] = (x, b, 1, []) := by
  simp [readRequestBytes]

lemma handleAux_step_true (env : HottEnv) (s s' : HottDriverState)
    (t f : Nat) (h : hottStateStep env s t = (s', true)) :
    handleAux env (f + 1) s t = handleAux env f s' t := by
  simp [handleAux, h]

lemma handleAux_step_false (env : HottEnv) (s s' : HottDriverState)
    (t f : Nat) (h : hottStateStep env s t = (s', false)) :
    handleAux env (f + 1) s t = s' := by
  simp [handleAux, h]

lemma stepWaiting_bytes (env : HottEnv) (s : HottDriverState) (t : Nat)
    (hst : s.hottState = HOTT_WAITING_FOR_REQUEST)
    (hrx : s.rxQueue ≠ []) :
    hottStateStep env s t =
      ({ s with hottRequestBufferPtr := 0,
                hottState := HOTT_RECEIVING_REQUEST,
                hottStateChangeUs := t }, true) := by
  simp only [hottStateStep, hst]
  rw [if_pos hrx]
  simp [hottSwitchState, hst]

lemma stepWaiting_empty (env : HottEnv) (s : HottDriverState) (t : Nat)
    (hst : s.hottState = HOTT_WAITING_FOR_REQUEST)
    (hrx : s.rxQueue = []) :
    hottStateStep env s t = (s, false) := by
  simp [hottStateStep, hst, hrx]

lemma stepReceiving_timeout (env : HottEnv) (s : HottDriverState) (t : Nat)
    (hst : s.hottState = HOTT_RECEIVING_REQUEST)
    (htime : u32sub t s.hottStateChangeUs ≥ s.rxSchedule) :
    hottStateStep env s t =
      ({ s with rxQueue := [],
                hottState := HOTT_WAITING_FOR_REQUEST,
                hottStateChangeUs := t }, false) := by
  simp only [hottStateStep, hst]
  rw [if_pos htime]
  simp [flushHottRxBuffer, hottSwitchState, hst]

lemma stepReceiving_oneByte (env : HottEnv) (s : HottDriverState)
    (x t : Nat)
    (hst : s.hottState = HOTT_RECEIVING_REQUEST)
    (hptr : s.hottRequestBufferPtr = 0)
    (hrx : s.rxQueue = [x])
    (htime : u32sub t s.hottStateChangeUs < s.rxSchedule) :
    hottStateStep env s t =
      ({ s with hottRequestBuffer0 := x, hottRequestBufferPtr := 1,
                rxQueue := [] }, false) := by
  simp only [hottStateStep, hst]
  rw [if_neg (by omega)]
  simp only [hptr, hrx, readRequestBytes_one]
  norm_num

lemma stepReceiving_garbage (env : HottEnv) (s : HottDriverState)
    (b0 b1 : Nat) (rest : List Nat) (t : Nat)
    (hst : s.hottState = HOTT_RECEIVING_REQUEST)
    (hptr : s.hottRequestBufferPtr = 0)
    (hrx : s.rxQueue = b0 :: b1 :: rest)
    (htime : u32sub t s.hottStateChangeUs < s.rxSchedule)
    (h0 : b0 ≠ 0) (h80 : b0 ≠ 0x80) (h7f : b0 ≠ 0x7F) :
    hottStateStep env s t =
      ({ s with hottRequestBuffer0 := b0, hottRequestBuffer1 := b1,
                hottRequestBufferPtr := 2, rxQueue := [],
                hottState := HOTT_WAITING_FOR_REQUEST,
                hottStateChangeUs := t }, true) := by
  simp only [hottStateStep, hst]
  rw [if_neg (by omega)]
  simp only [hptr, hrx, readRequestBytes_two]
  simp only [HOTT_BINARY_MODE_REQUEST_ID, HOTT_TEXT_MODE_REQUEST_ID]
  norm_num [h0, h80, h7f, flushHottRxBuffer, hottSwitchState]
  exact fun h => absurd h (by decide)

lemma stepReceiving_binary (env : HottEnv) (s : HottDriverState)
    (b0 b1 : Nat) (rest : List Nat) (t : Nat)
    (hst : s.hottState = HOTT_RECEIVING_REQUEST)
    (hptr : s.hottRequestBufferPtr = 0)
    (hrx : s.rxQueue = b0 :: b1 :: rest)
    (htime : u32sub t s.hottStateChangeUs < s.rxSchedule)
    (hb : b0 = 0 ∨ b0 = 0x80) :
    hottStateStep env s t =
      (hottSwitchState
        (processBinaryModeRequest env
          { s with hottState := HOTT_RECEIVING_REQUEST,
                   hottRequestBuffer0 := b0, hottRequestBuffer1 := b1,
                   hottRequestBufferPtr := 2, rxQueue := rest } b1).2
        (if (processBinaryModeRequest env
          { s with hottState := HOTT_RECEIVING_REQUEST,
                   hottRequestBuffer0 := b0, hottRequestBuffer1 := b1,
                   hottRequestBufferPtr := 2, rxQueue := rest } b1).1
         then HOTT_WAITING_FOR_TX_WINDOW else HOTT_WAITING_FOR_REQUEST) t,
       true) := by
  simp only [hottStateStep, hst]
  rw [if_neg (by omega)]
  simp only [hptr, hrx, readRequestBytes_two]
  simp only [HOTT_BINARY_MODE_REQUEST_ID]
  rw [if_pos (by norm_num)]
  rw [if_pos hb]
  cases hp : (processBinaryModeRequest env
      { s with hottState := HOTT_RECEIVING_REQUEST,
               hottRequestBuffer0 := b0, hottRequestBuffer1 := b1,
               hottRequestBufferPtr := 2, rxQueue := rest } b1).1 <;>
    simp [hp]

end Hott

namespace Hott

lemma stepReceiving_text (env : HottEnv) (s : HottDriverState)
    (b1 : Nat) (rest : List Nat) (t : Nat)
    (hst : s.hottState = HOTT_RECEIVING_REQUEST)
    (hptr : s.hottRequestBufferPtr = 0)
    (hrx : s.rxQueue = 0x7F :: b1 :: rest)
    (htime : u32sub t s.hottStateChangeUs < s.rxSchedule) :
    hottStateStep env s t =
      (hottSwitchState
        (processHottTextModeRequest
          { s with hottState := HOTT_RECEIVING_REQUEST,
                   hottRequestBuffer0 := 0x7F, hottRequestBuffer1 := b1,
                   hottRequestBufferPtr := 2, rxQueue := rest } b1).2
        (if (processHottTextModeRequest
          { s with hottState := HOTT_RECEIVING_REQUEST,
                   hottRequestBuffer0 := 0x7F, hottRequestBuffer1 := b1,
                   hottRequestBufferPtr := 2, rxQueue := rest } b1).1
         then HOTT_WAITING_FOR_TX_WINDOW else HOTT_WAITING_FOR_REQUEST) t,
       true) := by
  simp only [hottStateStep, hst]
  rw [if_neg (by omega)]
  simp only [hptr, hrx, readRequestBytes_two]
  simp only [HOTT_BINARY_MODE_REQUEST_ID, HOTT_TEXT_MODE_REQUEST_ID]
  rw [if_pos (by norm_num)]
  rw [if_neg (by norm_num)]
  rw [if_pos (by norm_num)]
  cases hp : (processHottTextModeRequest
      { s with hottState := HOTT_RECEIVING_REQUEST,
               hottRequestBuffer0 := 0x7F, hottRequestBuffer1 := b1,
               hottRequestBufferPtr := 2, rxQueue := rest } b1).1 <;>
    simp [hp]

lemma stepTxWindow_go (env : HottEnv) (s : HottDriverState) (t : Nat)
    (hst : s.hottState = HOTT_WAITING_FOR_TX_WINDOW)
    (htime : u32sub t s.hottStateChangeUs ≥ HOTT_TX_SCHEDULE) :
    hottStateStep env s t =
      ({ s with hottTxMsgCrc := 0,
                hottState := HOTT_TRANSMITTING,
                hottStateChangeUs := t }, false) := by
  simp only [hottStateStep, hst]
  rw [if_pos htime]
  simp [hottSwitchState, hst]

lemma stepTxWindow_wait (env : HottEnv) (s : HottDriverState) (t : Nat)
    (hst : s.hottState = HOTT_WAITING_FOR_TX_WINDOW)
    (htime : u32sub t s.hottStateChangeUs < HOTT_TX_SCHEDULE) :
    hottStateStep env s t = (s, false) := by
  simp only [hottStateStep, hst]
  rw [if_neg (by omega)]

lemma stepTransmitting_blocked (env : HottEnv) (s : HottDriverState)
    (t : Nat)
    (hst : s.hottState = HOTT_TRANSMITTING)
    (htime : u32sub t s.byteSentTimeUs < HOTT_TX_DELAY_US) :
    hottStateStep env s t = (s, false) := by
  simp only [hottStateStep, hst, hottSendTelemetryDataByte]
  rw [if_pos htime]
  simp

lemma stepTransmitting_data (env : HottEnv) (s : HottDriverState)
    (b : Nat) (rest : List Nat) (t : Nat)
    (hst : s.hottState = HOTT_TRANSMITTING)
    (htime : ¬u32sub t s.byteSentTimeUs < HOTT_TX_DELAY_US)
    (hmsg : s.hottTxMsg = b :: rest) :
    hottStateStep env s t =
      ({ s with hottTxMsgCrc := (s.hottTxMsgCrc + b) % 256,
                txSent := s.txSent ++ [b],
                hottTxMsg := rest }, false) := by
  simp only [hottStateStep, hst, hottSendTelemetryDataByte]
  rw [if_neg htime]
  simp [hmsg]

lemma stepTransmitting_crc (env : HottEnv) (s : HottDriverState) (t : Nat)
    (hst : s.hottState = HOTT_TRANSMITTING)
    (htime : ¬u32sub t s.byteSentTimeUs < HOTT_TX_DELAY_US)
    (hmsg : s.hottTxMsg = []) :
    hottStateStep env s t =
      ({ s with txSent := s.txSent ++ [s.hottTxMsgCrc],
                hottState := HOTT_ENDING_TRANSMISSION,
                hottStateChangeUs := t }, false) := by
  simp only [hottStateStep, hst, hottSendTelemetryDataByte]
  rw [if_neg htime]
  simp [hmsg, hottSwitchState, hst]

lemma stepEnding_go (env : HottEnv) (s : HottDriverState) (t : Nat)
    (hst : s.hottState = HOTT_ENDING_TRANSMISSION)
    (htime : u32sub t s.hottStateChangeUs ≥ s.txDelayUs) :
    hottStateStep env s t =
      ({ s with rxQueue := [],
                hottState := HOTT_WAITING_FOR_REQUEST,
                hottStateChangeUs := t }, true) := by
  simp only [hottStateStep, hst]
  rw [if_pos htime]
  simp [flushHottRxBuffer, hottSwitchState, hst]

lemma stepEnding_wait (env : HottEnv) (s : HottDriverState) (t : Nat)
    (hst : s.hottState = HOTT_ENDING_TRANSMISSION)
    (htime : u32sub t s.hottStateChangeUs < s.txDelayUs) :
    hottStateStep env s t = (s, false) := by
  simp only [hottStateStep, hst]
  rw [if_neg (by omega)]

lemma handle_eq_aux (env : HottEnv) (s : HottDriverState) (t : Nat)
    (hen : s.hottTelemetryEnabled = true) :
    handleHoTTTelemetry env s t =
      handleAux env (2 * s.rxQueue.length + 8) s t := by
  simp [handleHoTTTelemetry, hen]

end Hott

namespace Hott

lemma processBinary_eam (env : HottEnv) (s : HottDriverState)
    (halive : s.textmodeIsAlive = false) :
    processBinaryModeRequest env s 0x8E =
      (true,
       { s with
         hottEAMMessage :=
           (hottPrepareEAMResponse env s.lastHottAlarmSoundTime
             s.hottEAMMessage).1
         lastHottAlarmSoundTime :=
           (hottPrepareEAMResponse env s.lastHottAlarmSoundTime
             s.hottEAMMessage).2
         hottTxMsg := serializeEAM
           (hottPrepareEAMResponse env s.lastHottAlarmSoundTime
             s.hottEAMMessage).1 }) := by
  simp [processBinaryModeRequest, halive, hottQueueSendResponse]

lemma processBinary_gps_ok (env : HottEnv) (s : HottDriverState)
    (halive : s.textmodeIsAlive = false)
    (hgps : env.sensorGps = true ∨ env.gpsEstimatedFix = true) :
    processBinaryModeRequest env s 0x8A =
      (true,
       { s with
         hottGPSMessage := hottPrepareGPSResponse env s.hottGPSMessage
         hottTxMsg := serializeGPS
           (hottPrepareGPSResponse env s.hottGPSMessage) }) := by
  rcases hgps with h | h <;>
    simp [processBinaryModeRequest, halive, h, hottQueueSendResponse]

lemma processBinary_gps_fail (env : HottEnv) (s : HottDriverState)
    (halive : s.textmodeIsAlive = false)
    (hgps : env.sensorGps = false) (hest : env.gpsEstimatedFix = false) :
    processBinaryModeRequest env s 0x8A = (false, s) := by
  simp [processBinaryModeRequest, halive, hgps, hest]

lemma processBinary_unknown (env : HottEnv) (s : HottDriverState)
    (address : Nat)
    (halive : s.textmodeIsAlive = false)
    (h8a : address ≠ 0x8A) (h8e : address ≠ 0x8E) :
    processBinaryModeRequest env s address = (false, s) := by
  simp [processBinaryModeRequest, halive, h8a, h8e]

end Hott

namespace Hott

/-- C3: for every completed 2-byte request whose first byte is neither the
binary-mode marker (0x80, also read as 0x00) nor the text-mode marker
(0x7F), the driver discards all buffered input and returns to
Idle-Listening without arming any response: the Response Queue
(`hottTxMsg`) is left unchanged. -/
theorem claim_C3 (env : HottEnv) (s : HottDriverState) (b0 b1 : Nat)
    (rest : List Nat) (t : Nat)
    (hen : s.hottTelemetryEnabled = true)
    (hst : s.hottState = HOTT_RECEIVING_REQUEST)
    (hptr : s.hottRequestBufferPtr = 0)
    (hrx : s.rxQueue = b0 :: b1 :: rest)
    (htime : u32sub t s.hottStateChangeUs < s.rxSchedule)
    (h0 : b0 ≠ 0) (h80 : b0 ≠ 0x80) (h7f : b0 ≠ 0x7F) :
    (handleHoTTTelemetry env s t).hottState = HOTT_WAITING_FOR_REQUEST ∧
    (handleHoTTTelemetry env s t).rxQueue = [] ∧
    (handleHoTTTelemetry env s t).hottTxMsg = s.hottTxMsg := by
  obtain ⟨f, hf⟩ : ∃ f, 2 * s.rxQueue.length + 8 = (f + 1) + 1 :=
    ⟨2 * s.rxQueue.length + 6, by omega⟩
  have h1 := stepReceiving_garbage env s b0 b1 rest t hst hptr hrx htime h0 h80 h7f
  have key : handleHoTTTelemetry env s t =
      { s with hottRequestBuffer0 := b0, hottRequestBuffer1 := b1,
               hottRequestBufferPtr := 2, rxQueue := [],
               hottState := HOTT_WAITING_FOR_REQUEST,
               hottStateChangeUs := t } := by
    rw [handle_eq_aux env s t hen, hf,
        handleAux_step_true env s _ t (f + 1) h1,
        handleAux_step_false env _ _ t f (stepWaiting_empty env _ t (by simp) (by simp))]
  rw [key]
  exact ⟨rfl, rfl, rfl⟩

end Hott

namespace Hott

lemma u32sub_self (t : Nat) : u32sub t t = 0 := by
  simp [u32sub, U32]

lemma u32sub_zero (a : Nat) : u32sub a 0 = a % U32 := by
  simp [u32sub, U32]

lemma hottSwitchState_hottState (s : HottDriverState) (n : HottStateE)
    (t : Nat) : (hottSwitchState s n t).hottState = n := by
  by_cases h : s.hottState = n <;> simp [hottSwitchState, h]

lemma handle_arm_eam (env : HottEnv) (s : HottDriverState) (b0 t : Nat)
    (hen : s.hottTelemetryEnabled = true)
    (hst : s.hottState = HOTT_WAITING_FOR_REQUEST)
    (hrx : s.rxQueue = [b0, 0x8E])
    (hb : b0 = 0 ∨ b0 = 0x80)
    (halive : s.textmodeIsAlive = false)
    (hsched : 0 < s.rxSchedule) :
    handleHoTTTelemetry env s t =
      { s with
        hottRequestBuffer0 := b0, hottRequestBuffer1 := 0x8E,
        hottRequestBufferPtr := 2, rxQueue := [],
        hottEAMMessage :=
          (hottPrepareEAMResponse env s.lastHottAlarmSoundTime
            s.hottEAMMessage).1
        lastHottAlarmSoundTime :=
          (hottPrepareEAMResponse env s.lastHottAlarmSoundTime
            s.hottEAMMessage).2
        hottTxMsg := serializeEAM
          (hottPrepareEAMResponse env s.lastHottAlarmSoundTime
            s.hottEAMMessage).1
        hottState := HOTT_WAITING_FOR_TX_WINDOW
        hottStateChangeUs := t } := by
  rw [handle_eq_aux env s t hen, hrx]
  show handleAux env (11 + 1) s t = _
  rw [handleAux_step_true env s _ t 11
      (stepWaiting_bytes env s t hst (by rw [hrx]; simp))]
  show handleAux env (10 + 1) _ t = _
  rw [handleAux_step_true env _ _ t 10
      (stepReceiving_binary env _ b0 0x8E [] t (by simp) (by simp)
        (by simp [hrx]) (by simp [u32sub_self]; omega) hb)]
  rw [processBinary_eam env _ (by simp [halive])]
  show handleAux env (9 + 1) _ t = _
  rw [handleAux_step_false env _ _ t 9
      (stepTxWindow_wait env _ t (by simp [hottSwitchState_hottState])
        (by simp [hottSwitchState, u32sub_self, HOTT_TX_SCHEDULE]))]
  simp [hottSwitchState]

end Hott

namespace Hott

lemma handle_arm_gps (env : HottEnv) (s : HottDriverState) (b0 t : Nat)
    (hen : s.hottTelemetryEnabled = true)
    (hst : s.hottState = HOTT_WAITING_FOR_REQUEST)
    (hrx : s.rxQueue = [b0, 0x8A])
    (hb : b0 = 0 ∨ b0 = 0x80)
    (halive : s.textmodeIsAlive = false)
    (hgps : env.sensorGps = true ∨ env.gpsEstimatedFix = true)
    (hsched : 0 < s.rxSchedule) :
    handleHoTTTelemetry env s t =
      { s with
        hottRequestBuffer0 := b0, hottRequestBuffer1 := 0x8A,
        hottRequestBufferPtr := 2, rxQueue := [],
        hottGPSMessage := hottPrepareGPSResponse env s.hottGPSMessage
        hottTxMsg := serializeGPS
          (hottPrepareGPSResponse env s.hottGPSMessage)
        hottState := HOTT_WAITING_FOR_TX_WINDOW
        hottStateChangeUs := t } := by
  rw [handle_eq_aux env s t hen, hrx]
  show handleAux env (11 + 1) s t = _
  rw [handleAux_step_true env s _ t 11
      (stepWaiting_bytes env s t hst (by rw [hrx]; simp))]
  show handleAux env (10 + 1) _ t = _
  rw [handleAux_step_true env _ _ t 10
      (stepReceiving_binary env _ b0 0x8A [] t (by simp) (by simp)
        (by simp [hrx]) (by simp [u32sub_self]; omega) hb)]
  rw [processBinary_gps_ok env _ (by simp [halive]) hgps]
  show handleAux env (9 + 1) _ t = _
  rw [handleAux_step_false env _ _ t 9
      (stepTxWindow_wait env _ t (by simp [hottSwitchState_hottState])
        (by simp [hottSwitchState, u32sub_self, HOTT_TX_SCHEDULE]))]
  simp [hottSwitchState]

lemma handle_gps_fail (env : HottEnv) (s : HottDriverState) (b0 t : Nat)
    (hen : s.hottTelemetryEnabled = true)
    (hst : s.hottState = HOTT_WAITING_FOR_REQUEST)
    (hrx : s.rxQueue = [b0, 0x8A])
    (hb : b0 = 0 ∨ b0 = 0x80)
    (halive : s.textmodeIsAlive = false)
    (hgps : env.sensorGps = false) (hest : env.gpsEstimatedFix = false)
    (hsched : 0 < s.rxSchedule) :
    handleHoTTTelemetry env s t =
      { s with
        hottRequestBuffer0 := b0, hottRequestBuffer1 := 0x8A,
        hottRequestBufferPtr := 2, rxQueue := [],
        hottState := HOTT_WAITING_FOR_REQUEST,
        hottStateChangeUs := t } := by
  rw [handle_eq_aux env s t hen, hrx]
  show handleAux env (11 + 1) s t = _
  rw [handleAux_step_true env s _ t 11
      (stepWaiting_bytes env s t hst (by rw [hrx]; simp))]
  show handleAux env (10 + 1) _ t = _
  rw [handleAux_step_true env _ _ t 10
      (stepReceiving_binary env _ b0 0x8A [] t (by simp) (by simp)
        (by simp [hrx]) (by simp [u32sub_self]; omega) hb)]
  rw [processBinary_gps_fail env _ (by simp [halive]) hgps hest]
  show handleAux env (9 + 1) _ t = _
  rw [handleAux_step_false env _ _ t 9
      (stepWaiting_empty env _ t (by simp [hottSwitchState_hottState])
        (by simp [hottSwitchState]))]
  simp [hottSwitchState]

end Hott

namespace Hott

lemma processBinary_buf0_swap (env : HottEnv) (s : HottDriverState)
    (b1 : Nat) (rest : List Nat) :
    (processBinaryModeRequest env
      { s with hottState := HOTT_RECEIVING_REQUEST,
               hottRequestBuffer0 := 0, hottRequestBuffer1 := b1,
               hottRequestBufferPtr := 2, rxQueue := rest } b1).1 =
    (processBinaryModeRequest env
      { s with hottState := HOTT_RECEIVING_REQUEST,
               hottRequestBuffer0 := 0x80, hottRequestBuffer1 := b1,
               hottRequestBufferPtr := 2, rxQueue := rest } b1).1 ∧
    (processBinaryModeRequest env
      { s with hottState := HOTT_RECEIVING_REQUEST,
               hottRequestBuffer0 := 0, hottRequestBuffer1 := b1,
               hottRequestBufferPtr := 2, rxQueue := rest } b1).2 =
    { (processBinaryModeRequest env
      { s with hottState := HOTT_RECEIVING_REQUEST,
               hottRequestBuffer0 := 0x80, hottRequestBuffer1 := b1,
               hottRequestBufferPtr := 2, rxQueue := rest } b1).2 with
      hottRequestBuffer0 := 0 } ∧
    (processBinaryModeRequest env
      { s with hottState := HOTT_RECEIVING_REQUEST,
               hottRequestBuffer0 := 0x80, hottRequestBuffer1 := b1,
               hottRequestBufferPtr := 2, rxQueue := rest } b1).2.hottState =
      HOTT_RECEIVING_REQUEST ∧
    (processBinaryModeRequest env
      { s with hottState := HOTT_RECEIVING_REQUEST,
               hottRequestBuffer0 := 0x80, hottRequestBuffer1 := b1,
               hottRequestBufferPtr := 2, rxQueue := rest } b1).2.rxQueue =
      rest ∧
    (processBinaryModeRequest env
      { s with hottState := HOTT_RECEIVING_REQUEST,
               hottRequestBuffer0 := 0x80, hottRequestBuffer1 := b1,
               hottRequestBufferPtr := 2, rxQueue := rest } b1).2.hottTelemetryEnabled =
      s.hottTelemetryEnabled := by
  unfold processBinaryModeRequest
  dsimp only
  split_ifs <;>
    simp [hottQueueSendResponse, hottTextmodeStop]

end Hott

namespace Hott

lemma hottSwitchState_of_ne (s : HottDriverState) (n : HottStateE) (t : Nat)
    (h : s.hottState ≠ n) :
    hottSwitchState s n t =
      { s with hottState := n, hottStateChangeUs := t } := by
  simp [hottSwitchState, h]

/-- C4: the Request Decoder treats the hardware-misread first byte 0x00
and the true binary-mode marker 0x80 as the same binary mode: a full poll
invocation on the two requests produces identical driver states except for
the raw marker byte stored in the receive scratch buffer, dispatching on
the second (address) byte in both cases. -/
theorem claim_C4 (env : HottEnv) (s : HottDriverState) (b1 t : Nat)
    (hen : s.hottTelemetryEnabled = true)
    (hst : s.hottState = HOTT_RECEIVING_REQUEST)
    (hptr : s.hottRequestBufferPtr = 0)
    (htime : u32sub t s.hottStateChangeUs < s.rxSchedule) :
    handleHoTTTelemetry env { s with rxQueue := [0, b1] } t =
      { handleHoTTTelemetry env { s with rxQueue := [0x80, b1] } t with
        hottRequestBuffer0 := 0 } := by
  obtain ⟨hfst, hsnd, hstate2, hrx2, -⟩ :=
    processBinary_buf0_swap env s b1 []
  have hA := stepReceiving_binary env { s with rxQueue := [0, b1] } 0 b1 [] t
    (by simpa using hst) (by simpa using hptr) rfl (by simpa using htime)
    (Or.inl rfl)
  have hB := stepReceiving_binary env { s with rxQueue := [0x80, b1] } 0x80
    b1 [] t (by simpa using hst) (by simpa using hptr) rfl
    (by simpa using htime) (Or.inr rfl)
  rw [handle_eq_aux env _ t (by simpa using hen),
      handle_eq_aux env _ t (by simpa using hen)]
  show handleAux env (11 + 1) _ t =
    { handleAux env (11 + 1) _ t with hottRequestBuffer0 := 0 }
  rw [handleAux_step_true env _ _ t 11 hA,
      handleAux_step_true env _ _ t 11 hB]
  rw [hfst, hsnd]
  by_cases hok : (processBinaryModeRequest env
      { s with hottState := HOTT_RECEIVING_REQUEST,
               hottRequestBuffer0 := 0x80, hottRequestBuffer1 := b1,
               hottRequestBufferPtr := 2, rxQueue := [] } b1).1 = true
  · rw [hok]
    simp only [if_true]
    rw [hottSwitchState_of_ne _ _ t (by simp [hstate2]),
        hottSwitchState_of_ne _ _ t (by simp [hstate2])]
    show handleAux env (10 + 1) _ t =
      { handleAux env (10 + 1) _ t with hottRequestBuffer0 := 0 }
    rw [handleAux_step_false env _ _ t 10
        (stepTxWindow_wait env _ t (by simp)
          (by simp [u32sub_self, HOTT_TX_SCHEDULE])),
        handleAux_step_false env _ _ t 10
        (stepTxWindow_wait env _ t (by simp)
          (by simp [u32sub_self, HOTT_TX_SCHEDULE]))]
  · rw [Bool.not_eq_true] at hok
    rw [hok]
    simp only [Bool.false_eq_true, if_false]
    rw [hottSwitchState_of_ne _ _ t (by simp [hstate2]),
        hottSwitchState_of_ne _ _ t (by simp [hstate2])]
    show handleAux env (10 + 1) _ t =
      { handleAux env (10 + 1) _ t with hottRequestBuffer0 := 0 }
    rw [handleAux_step_false env _ _ t 10
        (stepWaiting_empty env _ t (by simp) (by simp [hrx2])),
        handleAux_step_false env _ _ t 10
        (stepWaiting_empty env _ t (by simp) (by simp [hrx2]))]

end Hott

namespace Hott

/-- C6: a binary-mode request for the GPS record address 0x8A with no GPS
sensor present and no estimated fix makes the decoder report failure and
leave the queue unchanged, and the full poll invocation returns the state
machine to Idle-Listening without arming any response. -/
theorem claim_C6 (env : HottEnv) (s : HottDriverState) (b0 t : Nat)
    (hen : s.hottTelemetryEnabled = true)
    (hst : s.hottState = HOTT_WAITING_FOR_REQUEST)
    (hrx : s.rxQueue = [b0, 0x8A])
    (hb : b0 = 0 ∨ b0 = 0x80)
    (halive : s.textmodeIsAlive = false)
    (hgps : env.sensorGps = false) (hest : env.gpsEstimatedFix = false)
    (hsched : 0 < s.rxSchedule) :
    (∀ s₂ : HottDriverState, s₂.textmodeIsAlive = false →
      processBinaryModeRequest env s₂ 0x8A = (false, s₂)) ∧
    (handleHoTTTelemetry env s t).hottState = HOTT_WAITING_FOR_REQUEST ∧
    (handleHoTTTelemetry env s t).hottTxMsg = s.hottTxMsg := by
  refine ⟨fun s₂ h₂ => processBinary_gps_fail env s₂ h₂ hgps hest, ?_, ?_⟩ <;>
    rw [handle_gps_fail env s b0 t hen hst hrx hb halive hgps hest hsched]

/-- C5: if only one request byte arrives and the default request timeout
(4000 microseconds) elapses from entry into Receiving-Request, the driver
flushes the transport input, discards the partial byte and returns to
Idle-Listening with the Response Queue untouched; every later entry into
Receiving-Request resets the pending-request count to 0 first, so the
stale byte is never treated as the start of the next request. -/
theorem claim_C5 (env : HottEnv) (s : HottDriverState) (b t0 t1 : Nat)
    (hen : s.hottTelemetryEnabled = true)
    (hst : s.hottState = HOTT_WAITING_FOR_REQUEST)
    (hrx : s.rxQueue = [b])
    (hsched : s.rxSchedule = HOTT_RX_SCHEDULE)
    (htimeout : u32sub t1 t0 ≥ HOTT_RX_SCHEDULE) :
    (handleHoTTTelemetry env s t0).hottState = HOTT_RECEIVING_REQUEST ∧
    (handleHoTTTelemetry env s t0).hottRequestBufferPtr = 1 ∧
    (handleHoTTTelemetry env (handleHoTTTelemetry env s t0) t1).hottState =
      HOTT_WAITING_FOR_REQUEST ∧
    (handleHoTTTelemetry env (handleHoTTTelemetry env s t0) t1).rxQueue = [] ∧
    (handleHoTTTelemetry env (handleHoTTTelemetry env s t0) t1).hottTxMsg =
      s.hottTxMsg ∧
    (∀ (s' : HottDriverState) (t' : Nat),
      s'.hottState = HOTT_WAITING_FOR_REQUEST → s'.rxQueue ≠ [] →
      (hottStateStep env s' t').1.hottRequestBufferPtr = 0 ∧
      (hottStateStep env s' t').1.hottState = HOTT_RECEIVING_REQUEST) := by
  have h1 : handleHoTTTelemetry env s t0 =
      { s with hottRequestBuffer0 := b, hottRequestBufferPtr := 1,
               rxQueue := [],
               hottState := HOTT_RECEIVING_REQUEST,
               hottStateChangeUs := t0 } := by
    rw [handle_eq_aux env s t0 hen, hrx]
    show handleAux env (9 + 1) s t0 = _
    rw [handleAux_step_true env s _ t0 9
        (stepWaiting_bytes env s t0 hst (by rw [hrx]; simp))]
    rw [handleAux_step_false env _ _ t0 8
        (stepReceiving_oneByte env _ b t0 (by simp) (by simp)
          (by simp [hrx]) (by simp [u32sub_self, hsched, HOTT_RX_SCHEDULE]))]
  have h2 : handleHoTTTelemetry env (handleHoTTTelemetry env s t0) t1 =
      { s with hottRequestBuffer0 := b, hottRequestBufferPtr := 1,
               rxQueue := [],
               hottState := HOTT_WAITING_FOR_REQUEST,
               hottStateChangeUs := t1 } := by
    rw [h1]
    rw [handle_eq_aux env _ t1 (by simpa using hen)]
    show handleAux env (7 + 1) _ t1 = _
    rw [handleAux_step_false env _ _ t1 7
        (stepReceiving_timeout env _ t1 (by simp)
          (by simpa [hsched] using htimeout))]
  refine ⟨by rw [h1], by rw [h1], by rw [h2], by rw [h2], by rw [h2],
    fun s' t' hst' hrx' => ?_⟩
  rw [stepWaiting_bytes env s' t' hst' hrx']
  exact ⟨rfl, rfl⟩

end Hott

namespace Hott

lemma prepareEAM_fields (env : HottEnv) (lastAlarm : Nat)
    (msg : HOTT_EAM_MSG_t) :
    (hottPrepareEAMResponse env lastAlarm msg).1.start_byte =
      msg.start_byte ∧
    (hottPrepareEAMResponse env lastAlarm msg).1.eam_sensor_id =
      msg.eam_sensor_id ∧
    (hottPrepareEAMResponse env lastAlarm msg).1.stop_byte =
      msg.stop_byte ∧
    (hottPrepareEAMResponse env lastAlarm msg).1.main_voltage_L =
      env.vbat / 10 % 256 ∧
    (hottPrepareEAMResponse env lastAlarm msg).1.main_voltage_H =
      env.vbat / 10 % 256 / 256 % 256 := by
  unfold hottPrepareEAMResponse hottEAMUpdateBattery
    updateAlarmBatteryStatus hottEAMUpdateCurrentMeter
    hottEAMUpdateBatteryDrawnCapacity hottEAMUpdateAltitudeAndClimbrate
  dsimp only
  split_ifs <;> simp

end Hott

namespace Hott



/-- C9 counterexample: running the full request [0x80, 0x8E] with
vbat = 1150 (11.50 V), the armed record's main-voltage field decodes to
115, not to 1150 as the claim states. -/
theorem claim_C9_counterexample :
    (handleHoTTTelemetry sampleEnv
        { initState with rxQueue := [0x80, 0x8E] } 10000).hottEAMMessage.main_voltage_L +
      256 * (handleHoTTTelemetry sampleEnv
        { initState with rxQueue := [0x80, 0x8E] } 10000).hottEAMMessage.main_voltage_H = 115 ∧
    ¬((handleHoTTTelemetry sampleEnv
        { initState with rxQueue := [0x80, 0x8E] } 10000).hottEAMMessage.main_voltage_L +
      256 * (handleHoTTTelemetry sampleEnv
        { initState with rxQueue := [0x80, 0x8E] } 10000).hottEAMMessage.main_voltage_H = 1150) := by
  decide

/-- C9 (amended): for request bytes [0x80, 0x8E] with a battery voltage
input of 1150 (10 mV units, 11.50 V), the armed EAM record carries the
generic-telemetry sensor id, start byte 0x7C and stop byte 0x7D, and its
little-endian main-voltage field decodes to 115 deciVolt (not 1150);
rescaling the decoded 115 dV by 10 recovers the original 1150 centivolt
input. -/
theorem claim_C9 (env : HottEnv) (s : HottDriverState) (b0 t : Nat)
    (hen : s.hottTelemetryEnabled = true)
    (hst : s.hottState = HOTT_WAITING_FOR_REQUEST)
    (hrx : s.rxQueue = [b0, 0x8E])
    (hb : b0 = 0 ∨ b0 = 0x80)
    (halive : s.textmodeIsAlive = false)
    (hsched : 0 < s.rxSchedule)
    (hvbat : env.vbat = 1150)
    (hstart : s.hottEAMMessage.start_byte = 0x7C)
    (hid : s.hottEAMMessage.eam_sensor_id = HOTT_TELEMETRY_EAM_SENSOR_ID)
    (hstop : s.hottEAMMessage.stop_byte = 0x7D) :
    (handleHoTTTelemetry env s t).hottTxMsg =
      serializeEAM (hottPrepareEAMResponse env s.lastHottAlarmSoundTime
        s.hottEAMMessage).1 ∧
    (hottPrepareEAMResponse env s.lastHottAlarmSoundTime
        s.hottEAMMessage).1.eam_sensor_id = HOTT_TELEMETRY_EAM_SENSOR_ID ∧
    (hottPrepareEAMResponse env s.lastHottAlarmSoundTime
        s.hottEAMMessage).1.start_byte = 0x7C ∧
    (hottPrepareEAMResponse env s.lastHottAlarmSoundTime
        s.hottEAMMessage).1.stop_byte = 0x7D ∧
    (hottPrepareEAMResponse env s.lastHottAlarmSoundTime
        s.hottEAMMessage).1.main_voltage_L +
      256 * (hottPrepareEAMResponse env s.lastHottAlarmSoundTime
        s.hottEAMMessage).1.main_voltage_H = 115 ∧
    ((hottPrepareEAMResponse env s.lastHottAlarmSoundTime
        s.hottEAMMessage).1.main_voltage_L +
      256 * (hottPrepareEAMResponse env s.lastHottAlarmSoundTime
        s.hottEAMMessage).1.main_voltage_H) * 10 = env.vbat := by
  obtain ⟨f1, f2, f3, f4, f5⟩ :=
    prepareEAM_fields env s.lastHottAlarmSoundTime s.hottEAMMessage
  refine ⟨?_, by rw [f2, hid], by rw [f1, hstart], by rw [f3, hstop],
    by rw [f4, f5, hvbat], by rw [f4, f5, hvbat]⟩
  rw [handle_arm_eam env s b0 t hen hst hrx hb halive hsched]

end Hott

namespace Hott

lemma enter_transmitting (env : HottEnv) (s : HottDriverState) (t : Nat)
    (hne : s.hottState ≠ HOTT_TRANSMITTING)
    (h : (hottStateStep env s t).1.hottState = HOTT_TRANSMITTING) :
    s.hottState = HOTT_WAITING_FOR_TX_WINDOW ∧
    (hottStateStep env s t).1.hottTxMsgCrc = 0 := by
  rcases hs : s.hottState with h1 | h2 | h3 | h4 | h5
  · simp only [hottStateStep, hs] at h ⊢
    split_ifs at h ⊢ <;>
      simp_all [hottSwitchState_hottState]
  · simp only [hottStateStep, hs] at h ⊢
    split_ifs at h ⊢ <;>
      simp_all [hottSwitchState_hottState]
  · simp only [hottStateStep, hs] at h ⊢
    split_ifs at h ⊢ <;>
      simp_all [hottSwitchState, hottSwitchState_hottState]
  · exact absurd hs hne
  · simp only [hottStateStep, hs] at h ⊢
    split_ifs at h ⊢ <;>
      simp_all [hottSwitchState_hottState]


lemma transmit_run (env : HottEnv) (P : List Nat) :
    ∀ (s : HottDriverState) (c : Nat) (times : List Nat),
    s.hottTelemetryEnabled = true → s.hottState = HOTT_TRANSMITTING →
    s.byteSentTimeUs = 0 → s.hottTxMsg = P → s.hottTxMsgCrc = c →
    c < 256 → times.length = P.length + 1 →
    (∀ τ ∈ times, 2000 ≤ τ % U32) →
    (runPoll env s times).txSent = s.txSent ++ P ++ [(c + P.sum) % 256] ∧
    (runPoll env s times).hottState = HOTT_ENDING_TRANSMISSION ∧
    (runPoll env s times).hottTxMsg = [] := by
  induction P with
  | nil =>
    intro s c times hen hst hbyte hmsg hcrc hlt hlen htimes
    rcases times with - | ⟨τ, ts⟩
    · simp at hlen
    · rcases ts with - | ⟨τ2, ts2⟩
      · have hguard : ¬u32sub τ s.byteSentTimeUs < HOTT_TX_DELAY_US := by
          rw [hbyte, u32sub_zero]
          have := htimes τ (by simp)
          simp [HOTT_TX_DELAY_US]
          omega
        have hstep := stepTransmitting_crc env s τ hst hguard hmsg
        have hh : handleHoTTTelemetry env s τ =
            { s with txSent := s.txSent ++ [s.hottTxMsgCrc],
                     hottState := HOTT_ENDING_TRANSMISSION,
                     hottStateChangeUs := τ } := by
          rw [handle_eq_aux env s τ hen]
          obtain ⟨f, hf⟩ : ∃ f, 2 * s.rxQueue.length + 8 = f + 1 :=
            ⟨2 * s.rxQueue.length + 7, by omega⟩
          rw [hf, handleAux_step_false env _ _ τ f hstep]
        refine ⟨?_, ?_, ?_⟩ <;>
          simp [runPoll, hh, hcrc, Nat.mod_eq_of_lt hlt, hmsg]
      · simp at hlen
  | cons b rest ih =>
    intro s c times hen hst hbyte hmsg hcrc hlt hlen htimes
    rcases times with - | ⟨τ, ts⟩
    · simp at hlen
    · have hguard : ¬u32sub τ s.byteSentTimeUs < HOTT_TX_DELAY_US := by
        rw [hbyte, u32sub_zero]
        have := htimes τ (by simp)
        simp [HOTT_TX_DELAY_US]
        omega
      have hstep := stepTransmitting_data env s b rest τ hst hguard hmsg
      have hh : handleHoTTTelemetry env s τ =
          { s with hottTxMsgCrc := (s.hottTxMsgCrc + b) % 256,
                   txSent := s.txSent ++ [b],
                   hottTxMsg := rest } := by
        rw [handle_eq_aux env s τ hen]
        obtain ⟨f, hf⟩ : ∃ f, 2 * s.rxQueue.length + 8 = f + 1 :=
          ⟨2 * s.rxQueue.length + 7, by omega⟩
        rw [hf, handleAux_step_false env _ _ τ f hstep]
      have hrun : runPoll env s (τ :: ts) =
          runPoll env (handleHoTTTelemetry env s τ) ts := rfl
      obtain ⟨ih1, ih2, ih3⟩ := ih
        { s with hottTxMsgCrc := (s.hottTxMsgCrc + b) % 256,
                 txSent := s.txSent ++ [b], hottTxMsg := rest }
        ((c + b) % 256) ts (by simpa using hen) (by simpa using hst)
        (by simpa using hbyte) rfl (by simp [hcrc])
        (Nat.mod_lt _ (by norm_num)) (by simpa using hlen)
        (fun τ' hτ' => htimes τ' (by simp [hτ']))
      rw [hrun, hh]
      refine ⟨?_, ih2, ih3⟩
      rw [ih1]
      simp [Nat.mod_add_mod, List.append_assoc]
      omega

end Hott

namespace Hott




lemma neg_tmod (a b : Int) : (-a).tmod b = -(a.tmod b) := by
  rw [Int.tmod_def, Int.tmod_def, Int.neg_tdiv]
  ring

lemma emod_eq_hmod (x y : Int) : x.emod y = x % y := rfl

lemma decode_pair16 (x : Int) (h1 : -32768 ≤ x) (h2 : x < 32768) :
    signed16 (byteOfInt x + 256 * byteOfInt (sar8 x)) = x := by
  unfold signed16 byteOfInt sar8
  rw [Int.fdiv_eq_ediv _ (by norm_num), emod_eq_hmod, emod_eq_hmod]
  split_ifs <;> omega

lemma decode_u16pair (v : Nat) (hv : v < 65536) :
    v % 256 + 256 * (v / 256 % 256) = v := by
  omega

lemma signed16_emod (x : Int) (h1 : -32768 ≤ x) (h2 : x < 32768) :
    signed16 ((x.emod 65536).toNat) = x := by
  unfold signed16
  rw [emod_eq_hmod]
  split_ifs <;> omega

lemma tdiv_tmod_hundred (d m : Int) (hlo : -100 < m) (hhi : m < 100)
    (hsign : (0 ≤ d ∧ 0 ≤ m) ∨ (d ≤ 0 ∧ m ≤ 0)) :
    (d * 100 + m).tdiv 100 = d ∧ (d * 100 + m).tmod 100 = m := by
  rcases hsign with ⟨hd, hm⟩ | ⟨hd, hm⟩
  · rw [Int.tdiv_eq_ediv (by omega) (by norm_num),
        Int.tmod_eq_emod (by omega) (by norm_num)]
    omega
  · have hneg : d * 100 + m = -(-d * 100 + -m) := by ring
    rw [hneg, Int.neg_tdiv, neg_tmod,
        Int.tdiv_eq_ediv (by omega) (by norm_num),
        Int.tmod_eq_emod (by omega) (by norm_num)]
    omega

end Hott

namespace Hott

lemma roundtrip_nonneg (c : Int) (h1 : 0 ≤ c) (h2 : c < 2 ^ 31) :
    |reconMinuteTenThousandths (encodeGpsAxis c) - (c : ℚ) / 10000000| ≤
      1 / 600000 := by
  unfold encodeGpsAxis reconMinuteTenThousandths
  dsimp only
  set deg : Int := c.tdiv GPS_DEGREES_DIVIDER with hdeg
  set sec0 : Int := (c - deg * GPS_DEGREES_DIVIDER) * 6 with hsec0
  set mn : Int := sec0.tdiv 1000000 with hmn
  set sec : Int := (sec0.tmod 1000000).tdiv 100 with hsec
  set degMin : Nat := ((deg * 100 + mn).emod 65536).toNat with hdegMin
  have hD : GPS_DEGREES_DIVIDER = (10000000 : Int) := rfl
  rw [hD] at hdeg hsec0
  have hdeg' : deg = c / 10000000 := by
    rw [hdeg, Int.tdiv_eq_ediv h1 (by norm_num)]
  have hdegb : 0 ≤ deg ∧ deg ≤ 214 := by rw [hdeg']; omega
  have hsec0b : 0 ≤ sec0 ∧ sec0 < 60000000 := by
    rw [hsec0, hdeg']; omega
  have hmn' : mn = sec0 / 1000000 := by
    rw [hmn, Int.tdiv_eq_ediv (by omega) (by norm_num)]
  have hmnb : 0 ≤ mn ∧ mn ≤ 59 := by rw [hmn']; omega
  have hrem : sec0.tmod 1000000 = sec0 % 1000000 :=
    Int.tmod_eq_emod (by omega) (by norm_num)
  have hsec' : sec = sec0 % 1000000 / 100 := by
    rw [hsec, hrem, Int.tdiv_eq_ediv (by omega) (by norm_num)]
  have hsecb : 0 ≤ sec ∧ sec ≤ 9999 := by rw [hsec']; omega
  have hdegMin_eq : (degMin : Int) = deg * 100 + mn := by
    rw [hdegMin, emod_eq_hmod]; omega
  have hdegMinb : degMin < 65536 := by omega
  rw [decode_u16pair degMin hdegMinb]
  have hs16dm : signed16 degMin = deg * 100 + mn := by
    unfold signed16; split_ifs <;> omega
  rw [hs16dm, decode_pair16 sec (by omega) (by omega)]
  obtain ⟨ht1, ht2⟩ := tdiv_tmod_hundred deg mn (by omega) (by omega)
    (Or.inl ⟨by omega, by omega⟩)
  rw [ht1, ht2]
  set r2 : Int := sec0 % 1000000 % 100 with hr2
  have hr2b : 0 ≤ r2 ∧ r2 ≤ 99 := by rw [hr2]; omega
  have keyZ : 60000000 * deg + 1000000 * mn + 100 * sec + r2 = 6 * c := by
    rw [hsec', hmn', hr2, hsec0]; omega
  have keyQ : (60000000 : ℚ) * (deg : ℚ) + 1000000 * (mn : ℚ) +
      100 * (sec : ℚ) + (r2 : ℚ) = 6 * (c : ℚ) := by
    exact_mod_cast congrArg (fun z : Int => (z : ℚ)) keyZ
  have key : (deg : ℚ) + (mn : ℚ) / 60 + (sec : ℚ) / 600000 -
      (c : ℚ) / 10000000 = -(r2 : ℚ) / 60000000 := by
    field_simp
    linarith [keyQ]
  rw [key]
  have hq1 : (0 : ℚ) ≤ (r2 : ℚ) := by exact_mod_cast hr2b.1
  have hq2 : (r2 : ℚ) ≤ 99 := by exact_mod_cast hr2b.2
  rw [abs_le]
  constructor <;> [linarith; linarith]

end Hott

namespace Hott

lemma tdiv_neg_arg (a b : Int) (hb : 0 ≤ b) (ha : a ≤ 0) :
    a.tdiv b = -((-a) / b) := by
  conv_lhs => rw [show a = -(-a) by ring]
  rw [Int.neg_tdiv, Int.tdiv_eq_ediv (by omega) hb]

lemma tmod_neg_arg (a b : Int) (hb : 0 ≤ b) (ha : a ≤ 0) :
    a.tmod b = -((-a) % b) := by
  conv_lhs => rw [show a = -(-a) by ring]
  rw [neg_tmod, Int.tmod_eq_emod (by omega) hb]

lemma roundtrip_neg (c : Int) (h1 : -(2 ^ 31) ≤ c) (h2 : c < 0) :
    |reconMinuteTenThousandths (encodeGpsAxis c) - (c : ℚ) / 10000000| ≤
      1 / 600000 := by
  unfold encodeGpsAxis reconMinuteTenThousandths
  dsimp only
  set deg : Int := c.tdiv GPS_DEGREES_DIVIDER with hdeg
  set sec0 : Int := (c - deg * GPS_DEGREES_DIVIDER) * 6 with hsec0
  set mn : Int := sec0.tdiv 1000000 with hmn
  set sec : Int := (sec0.tmod 1000000).tdiv 100 with hsec
  set degMin : Nat := ((deg * 100 + mn).emod 65536).toNat with hdegMin
  have hD : GPS_DEGREES_DIVIDER = (10000000 : Int) := rfl
  rw [hD] at hdeg hsec0
  have hdeg' : deg = -((-c) / 10000000) := by
    rw [hdeg, tdiv_neg_arg c 10000000 (by norm_num) (by omega)]
  have hdegb : -214 ≤ deg ∧ deg ≤ 0 := by rw [hdeg']; omega
  have hsec0b : -60000000 < sec0 ∧ sec0 ≤ 0 := by
    rw [hsec0, hdeg']; omega
  have hmn' : mn = -((-sec0) / 1000000) := by
    rw [hmn, tdiv_neg_arg sec0 1000000 (by norm_num) (by omega)]
  have hmnb : -59 ≤ mn ∧ mn ≤ 0 := by rw [hmn']; omega
  have hrem : sec0.tmod 1000000 = -((-sec0) % 1000000) :=
    tmod_neg_arg sec0 1000000 (by norm_num) (by omega)
  have hsec' : sec = -((-sec0) % 1000000 / 100) := by
    rw [hsec, hrem, tdiv_neg_arg _ 100 (by norm_num) (by omega)]
    norm_num
  have hsecb : -9999 ≤ sec ∧ sec ≤ 0 := by rw [hsec']; omega
  have hs16dm : signed16 degMin = deg * 100 + mn := by
    rw [hdegMin]
    exact signed16_emod _ (by omega) (by omega)
  have hdegMinb : degMin < 65536 := by
    rw [hdegMin, emod_eq_hmod]; omega
  rw [decode_u16pair degMin hdegMinb, hs16dm,
      decode_pair16 sec (by omega) (by omega)]
  obtain ⟨ht1, ht2⟩ := tdiv_tmod_hundred deg mn (by omega) (by omega)
    (Or.inr ⟨by omega, by omega⟩)
  rw [ht1, ht2]
  set r2 : Int := (sec0.tmod 1000000).tmod 100 with hr2
  have hr2' : r2 = -((-sec0) % 1000000 % 100) := by
    rw [hr2, hrem, tmod_neg_arg _ 100 (by norm_num) (by omega)]
    norm_num
  have hr2b : -99 ≤ r2 ∧ r2 ≤ 0 := by rw [hr2']; omega
  have keyZ : 60000000 * deg + 1000000 * mn + 100 * sec + r2 = 6 * c := by
    rw [hsec', hmn', hr2', hdeg', hsec0, hdeg']; omega
  have keyQ : (60000000 : ℚ) * (deg : ℚ) + 1000000 * (mn : ℚ) +
      100 * (sec : ℚ) + (r2 : ℚ) = 6 * (c : ℚ) := by
    exact_mod_cast congrArg (fun z : Int => (z : ℚ)) keyZ
  have key : (deg : ℚ) + (mn : ℚ) / 60 + (sec : ℚ) / 600000 -
      (c : ℚ) / 10000000 = -(r2 : ℚ) / 60000000 := by
    field_simp
    linarith [keyQ]
  rw [key]
  have hq1 : (-99 : ℚ) ≤ (r2 : ℚ) := by exact_mod_cast hr2b.1
  have hq2 : (r2 : ℚ) ≤ 0 := by exact_mod_cast hr2b.2
  rw [abs_le]
  constructor <;> [linarith; linarith]

end Hott

namespace Hott

/-- C7 counterexample: at latitude 48.51 degrees (raw 485100000),
reading the second packed pair as hundredths of arcseconds, as the claim
states the layout, reconstructs 48.5166... degrees, which misses the
original value by far more than one hundredth of an arcsecond. -/
theorem claim_C7_counterexample :
    ¬(|reconSecondsHundredths (encodeGpsAxis 485100000) -
        (485100000 : ℚ) / 10000000| ≤ 1 / 360000) := by
  have henc : encodeGpsAxis 485100000 = (false, 222, 18, 112, 23) := by
    decide
  have hval : reconSecondsHundredths (encodeGpsAxis 485100000) =
      2911 / 60 := by
    rw [henc]
    unfold reconSecondsHundredths
    dsimp only
    rw [show (222 + 256 * 18 : Nat) = 4830 from by norm_num,
        show (112 + 256 * 23 : Nat) = 6000 from by norm_num,
        show signed16 4830 = 4830 from by decide,
        show signed16 6000 = 6000 from by decide,
        show (4830 : Int).tdiv 100 = 48 from by decide,
        show (4830 : Int).tmod 100 = 30 from by decide]
    norm_num
  intro h
  rw [hval] at h
  rw [show (2911 : ℚ) / 60 - (485100000 : ℚ) / 10000000 = 1 / 150 from by
    norm_num] at h
  rw [abs_of_pos (by norm_num : (0 : ℚ) < 1 / 150)] at h
  norm_num at h

/-- C7 (amended): encoding a coordinate through `addGPSCoordinates`'s
degree/minute packing and reconstructing degrees + minutes + seconds from
the packed fields recovers the original coordinate, where the second byte
pair holds ten-thousandths of an arcminute (not hundredths of an
arcsecond as the claim words it); the round-trip error is at most one
field unit, 1/600000 of a degree, and in particular within the claimed
one hundredth of an arcsecond (1/360000 of a degree).  The hemisphere
flag records the coordinate's sign. -/
theorem claim_C7 (c : Int) (h1 : -(2 ^ 31) ≤ c) (h2 : c < 2 ^ 31) :
    |reconMinuteTenThousandths (encodeGpsAxis c) - (c : ℚ) / 10000000| ≤
      1 / 600000 ∧
    |reconMinuteTenThousandths (encodeGpsAxis c) - (c : ℚ) / 10000000| ≤
      1 / 360000 ∧
    (encodeGpsAxis c).1 = decide (c < 0) := by
  have hb : |reconMinuteTenThousandths (encodeGpsAxis c) -
      (c : ℚ) / 10000000| ≤ 1 / 600000 := by
    rcases le_or_lt 0 c with hc | hc
    · exact roundtrip_nonneg c hc h2
    · exact roundtrip_neg c h1 hc
  exact ⟨hb, le_trans hb (by norm_num), rfl⟩

/-- C8 counterexample: with the battery in WARNING state and the alarm
interval gate open at the first population only, populating the record
twice with identical inputs yields different bytes (warning_beeps is 0x10
after the first population and 0 after the second). -/
theorem claim_C8_counterexample :
    (hottPrepareEAMResponse
      { sampleEnv with batteryState := BatteryState.BATTERY_WARNING,
                       millis := 5000, hottAlarmSoundInterval := 1 }
      ((hottPrepareEAMResponse
        { sampleEnv with batteryState := BatteryState.BATTERY_WARNING,
                         millis := 5000, hottAlarmSoundInterval := 1 }
        0 initialiseEAMMessage).2)
      ((hottPrepareEAMResponse
        { sampleEnv with batteryState := BatteryState.BATTERY_WARNING,
                         millis := 5000, hottAlarmSoundInterval := 1 }
        0 initialiseEAMMessage).1)).1 ≠
    (hottPrepareEAMResponse
      { sampleEnv with batteryState := BatteryState.BATTERY_WARNING,
                       millis := 5000, hottAlarmSoundInterval := 1 }
      0 initialiseEAMMessage).1 := by
  decide

/-- C8 (amended): populating the EAM record twice in a row with unchanged
inputs yields byte-identical contents in every field except possibly the
two alarm-indicator fields (`warning_beeps`, `alarm_invers1`), whose
refresh is gated by the wall-clock alarm interval; when the battery state
is neither WARNING nor CRITICAL the two populations are fully
byte-identical. -/
theorem claim_C8 (env : HottEnv) (lastAlarm : Nat) (msg : HOTT_EAM_MSG_t) :
    (hottPrepareEAMResponse env
        (hottPrepareEAMResponse env lastAlarm msg).2
        (hottPrepareEAMResponse env lastAlarm msg).1).1 =
      { (hottPrepareEAMResponse env lastAlarm msg).1 with
        warning_beeps := (hottPrepareEAMResponse env
          (hottPrepareEAMResponse env lastAlarm msg).2
          (hottPrepareEAMResponse env lastAlarm msg).1).1.warning_beeps
        alarm_invers1 := (hottPrepareEAMResponse env
          (hottPrepareEAMResponse env lastAlarm msg).2
          (hottPrepareEAMResponse env lastAlarm msg).1).1.alarm_invers1 } ∧
    (env.batteryState ≠ BatteryState.BATTERY_WARNING →
     env.batteryState ≠ BatteryState.BATTERY_CRITICAL →
     (hottPrepareEAMResponse env
        (hottPrepareEAMResponse env lastAlarm msg).2
        (hottPrepareEAMResponse env lastAlarm msg).1).1 =
      (hottPrepareEAMResponse env lastAlarm msg).1) := by
  unfold hottPrepareEAMResponse hottEAMUpdateBattery
    updateAlarmBatteryStatus hottEAMUpdateCurrentMeter
    hottEAMUpdateBatteryDrawnCapacity hottEAMUpdateAltitudeAndClimbrate
  dsimp only
  constructor
  · split_ifs <;> simp
  · intro hw hc
    split_ifs <;> simp_all [HOTT_EAM_ALARM1_FLAG_NONE]

end Hott

namespace Hott

/-- C10: a call of the overlay write-character hook with a column or row
index outside the 21x8 text grid is a no-op leaving the whole grid (and
message) unchanged; a call with in-range indices leaves every other field
and every cell other than the addressed one unchanged. -/
theorem claim_C10 :
    (∀ (column row c : Nat) (msg : HottTextModeMsg),
      HOTT_TEXTMODE_DISPLAY_COLUMNS ≤ column ∨
        HOTT_TEXTMODE_DISPLAY_ROWS ≤ row →
      hottTextmodeWriteChar column row c msg = msg) ∧
    (∀ (column row c : Nat) (msg : HottTextModeMsg),
      column < HOTT_TEXTMODE_DISPLAY_COLUMNS →
      row < HOTT_TEXTMODE_DISPLAY_ROWS →
      (hottTextmodeWriteChar column row c msg).start = msg.start ∧
      (hottTextmodeWriteChar column row c msg).esc = msg.esc ∧
      (hottTextmodeWriteChar column row c msg).warning = msg.warning ∧
      (hottTextmodeWriteChar column row c msg).stop = msg.stop ∧
      ∀ r cc : Nat, ¬(r = row ∧ cc = column) →
        (((hottTextmodeWriteChar column row c msg).txt.getD r []).getD cc 0
          : Nat) = ((msg.txt.getD r []).getD cc 0 : Nat)) := by
  constructor
  · intro column row c msg hout
    unfold hottTextmodeWriteChar
    rw [if_neg (by omega)]
  · intro column row c msg hcol hrow
    unfold hottTextmodeWriteChar
    rw [if_pos ⟨hcol, hrow⟩]
    split_ifs with hne
    · refine ⟨rfl, rfl, rfl, rfl, fun r cc hrc => ?_⟩
      dsimp only
      rcases eq_or_ne r row with hr | hr
      · subst hr
        have hcc : cc ≠ column := fun hcc => hrc ⟨rfl, hcc⟩
        simp only [List.getD_eq_getElem?_getD, List.getElem?_set_self']
        cases hrowlist : msg.txt[r]? with
        | none => simp
        | some oldRow =>
          simp only [Option.map_some, Option.getD_some, hrowlist]
          simp [hrowlist, List.getD_eq_getElem?_getD,
            List.getElem?_set_ne (Ne.symm hcc)]
      · simp [List.getD_eq_getElem?_getD, List.getElem?_set_ne (Ne.symm hr)]
    · exact ⟨rfl, rfl, rfl, rfl, fun r cc hrc => rfl⟩

/-- C2 evidence: with a queued 1-byte payload, poll invocations at
2000 and 2001 microseconds each transmit a byte, so consecutive bytes go
out 1 microsecond apart even though `HOTT_TX_DELAY_US` is 2000: the
static `byteSentTimeUs` is never updated after a send, leaving the
intra-byte interval guard ineffective. -/
theorem claim_C2_code_evaluation :
    (handleHoTTTelemetry sampleEnv
      { initState with hottState := HOTT_TRANSMITTING,
                       hottTxMsg := [0xAA] } 2000).txSent = [0xAA] ∧
    (handleHoTTTelemetry sampleEnv
      (handleHoTTTelemetry sampleEnv
        { initState with hottState := HOTT_TRANSMITTING,
                         hottTxMsg := [0xAA] } 2000) 2001).txSent =
      [0xAA, 0xAA] ∧
    u32sub 2001 2000 < HOTT_TX_DELAY_US := by
  refine ⟨by decide, by decide, by decide⟩

end Hott

namespace Hott

/-- C1: for every recognized binary-address request (generic telemetry
0x8E, or GPS 0x8A with a GPS source available) exactly one response is
armed in the single-slot queue, holding the freshly populated record's
bytes; the machine enters Transmitting only from
Awaiting-Transmit-Window with the checksum accumulator reset to 0 at that
entry; and from Transmitting the driver sends the queued payload bytes in
their original order followed by exactly one checksum byte equal to the
sum modulo 256 of all payload bytes sent (start and stop markers are part
of the payload and thus included; the checksum byte itself excluded). -/
theorem claim_C1 :
    (∀ (env : HottEnv) (s : HottDriverState) (b0 t : Nat),
      s.hottTelemetryEnabled = true →
      s.hottState = HOTT_WAITING_FOR_REQUEST →
      s.rxQueue = [b0, 0x8E] → b0 = 0 ∨ b0 = 0x80 →
      s.textmodeIsAlive = false → 0 < s.rxSchedule →
      (handleHoTTTelemetry env s t).hottState =
        HOTT_WAITING_FOR_TX_WINDOW ∧
      (handleHoTTTelemetry env s t).hottTxMsg =
        serializeEAM (hottPrepareEAMResponse env s.lastHottAlarmSoundTime
          s.hottEAMMessage).1) ∧
    (∀ (env : HottEnv) (s : HottDriverState) (b0 t : Nat),
      s.hottTelemetryEnabled = true →
      s.hottState = HOTT_WAITING_FOR_REQUEST →
      s.rxQueue = [b0, 0x8A] → b0 = 0 ∨ b0 = 0x80 →
      s.textmodeIsAlive = false →
      env.sensorGps = true ∨ env.gpsEstimatedFix = true →
      0 < s.rxSchedule →
      (handleHoTTTelemetry env s t).hottState =
        HOTT_WAITING_FOR_TX_WINDOW ∧
      (handleHoTTTelemetry env s t).hottTxMsg =
        serializeGPS (hottPrepareGPSResponse env s.hottGPSMessage)) ∧
    (∀ (env : HottEnv) (s : HottDriverState) (t : Nat),
      s.hottState ≠ HOTT_TRANSMITTING →
      (hottStateStep env s t).1.hottState = HOTT_TRANSMITTING →
      s.hottState = HOTT_WAITING_FOR_TX_WINDOW ∧
      (hottStateStep env s t).1.hottTxMsgCrc = 0) ∧
    (∀ (env : HottEnv) (s : HottDriverState) (P times : List Nat),
      s.hottTelemetryEnabled = true → s.hottState = HOTT_TRANSMITTING →
      s.byteSentTimeUs = 0 → s.hottTxMsg = P → s.hottTxMsgCrc = 0 →
      times.length = P.length + 1 → (∀ τ ∈ times, 2000 ≤ τ % U32) →
      (runPoll env s times).txSent = s.txSent ++ P ++ [P.sum % 256] ∧
      (runPoll env s times).hottTxMsg = []) := by
  refine ⟨?_, ?_, ?_, ?_⟩
  · intro env s b0 t hen hst hrx hb halive hsched
    rw [handle_arm_eam env s b0 t hen hst hrx hb halive hsched]
    exact ⟨rfl, rfl⟩
  · intro env s b0 t hen hst hrx hb halive hgps hsched
    rw [handle_arm_gps env s b0 t hen hst hrx hb halive hgps hsched]
    exact ⟨rfl, rfl⟩
  · exact fun env s t => enter_transmitting env s t
  · intro env s P times hen hst hbyte hmsg hcrc hlen htimes
    obtain ⟨h1, h2, h3⟩ := transmit_run env P s 0 times hen hst hbyte hmsg
      hcrc (by norm_num) hlen htimes
    rw [h1, Nat.zero_add]
    exact ⟨rfl, h3⟩

/-- C1 witness: the four parts instantiated at concrete requests,
states and timestamps; the transmission of payload [1, 2, 250] takes
exactly 4 polls and ends with checksum byte 253. -/
theorem claim_C1_witness :
    ((handleHoTTTelemetry sampleEnv
        { initState with rxQueue := [0x80, 0x8E] } 100).hottState =
      HOTT_WAITING_FOR_TX_WINDOW ∧
     (handleHoTTTelemetry sampleEnv
        { initState with rxQueue := [0x80, 0x8E] } 100).hottTxMsg =
      serializeEAM (hottPrepareEAMResponse sampleEnv
        ({ initState with rxQueue := [0x80, 0x8E] } :
          HottDriverState).lastHottAlarmSoundTime
        ({ initState with rxQueue := [0x80, 0x8E] } :
          HottDriverState).hottEAMMessage).1) ∧
    ((handleHoTTTelemetry { sampleEnv with sensorGps := true }
        { initState with rxQueue := [0x80, 0x8A] } 100).hottState =
      HOTT_WAITING_FOR_TX_WINDOW ∧
     (handleHoTTTelemetry { sampleEnv with sensorGps := true }
        { initState with rxQueue := [0x80, 0x8A] } 100).hottTxMsg =
      serializeGPS (hottPrepareGPSResponse { sampleEnv with sensorGps := true }
        ({ initState with rxQueue := [0x80, 0x8A] } :
          HottDriverState).hottGPSMessage)) ∧
    (({ initState with hottState := HOTT_WAITING_FOR_TX_WINDOW } :
        HottDriverState).hottState = HOTT_WAITING_FOR_TX_WINDOW ∧
     (hottStateStep sampleEnv
        { initState with hottState := HOTT_WAITING_FOR_TX_WINDOW }
        6000).1.hottTxMsgCrc = 0) ∧
    ((runPoll sampleEnv
        { initState with hottState := HOTT_TRANSMITTING,
                         hottTxMsg := [1, 2, 250] }
        [2000, 4000, 6000, 8000]).txSent =
      ({ initState with hottState := HOTT_TRANSMITTING,
                        hottTxMsg := [1, 2, 250] } :
        HottDriverState).txSent ++ [1, 2, 250] ++ [[1, 2, 250].sum % 256] ∧
     (runPoll sampleEnv
        { initState with hottState := HOTT_TRANSMITTING,
                         hottTxMsg := [1, 2, 250] }
        [2000, 4000, 6000, 8000]).hottTxMsg = []) := by
  refine ⟨?_, ?_, ?_, ?_⟩
  · exact claim_C1.1 sampleEnv _ 0x80 100 rfl rfl rfl (Or.inr rfl) rfl
      (by decide)
  · exact claim_C1.2.1 _ _ 0x80 100 rfl rfl rfl (Or.inr rfl) rfl
      (Or.inl rfl) (by decide)
  · exact claim_C1.2.2.1 sampleEnv _ 6000 (by decide) (by decide)
  · exact claim_C1.2.2.2 sampleEnv _ [1, 2, 250] [2000, 4000, 6000, 8000]
      rfl rfl rfl rfl rfl (by decide) (by decide)

end Hott

namespace Hott

/-- C3 witness: garbage first byte 0x55 at a concrete receiving state
is flushed and the queue stays empty. -/
theorem claim_C3_witness :
    (handleHoTTTelemetry sampleEnv
      { initState with hottState := HOTT_RECEIVING_REQUEST,
                       rxQueue := [0x55, 0x8A] } 100).hottState =
      HOTT_WAITING_FOR_REQUEST ∧
    (handleHoTTTelemetry sampleEnv
      { initState with hottState := HOTT_RECEIVING_REQUEST,
                       rxQueue := [0x55, 0x8A] } 100).rxQueue = [] ∧
    (handleHoTTTelemetry sampleEnv
      { initState with hottState := HOTT_RECEIVING_REQUEST,
                       rxQueue := [0x55, 0x8A] } 100).hottTxMsg =
      ({ initState with hottState := HOTT_RECEIVING_REQUEST,
                        rxQueue := [0x55, 0x8A] } :
        HottDriverState).hottTxMsg :=
  claim_C3 sampleEnv _ 0x55 0x8A [] 100 rfl rfl rfl rfl (by decide)
    (by decide) (by decide) (by decide)

/-- C4 witness: requests [0x00, 0x8E] and [0x80, 0x8E] at a concrete
state produce identical results up to the stored marker byte. -/
theorem claim_C4_witness :
    handleHoTTTelemetry sampleEnv
      { { initState with hottState := HOTT_RECEIVING_REQUEST } with
        rxQueue := [0, 0x8E] } 100 =
    { handleHoTTTelemetry sampleEnv
        { { initState with hottState := HOTT_RECEIVING_REQUEST } with
          rxQueue := [0x80, 0x8E] } 100 with hottRequestBuffer0 := 0 } :=
  claim_C4 sampleEnv { initState with hottState := HOTT_RECEIVING_REQUEST }
    0x8E 100 rfl rfl rfl (by decide)

/-- C5 witness: one byte at 1000 microseconds followed by silence until
5200 microseconds (4200 elapsed, above the 4000 default timeout). -/
theorem claim_C5_witness :
    (handleHoTTTelemetry sampleEnv
      { initState with rxQueue := [0x80] } 1000).hottState =
      HOTT_RECEIVING_REQUEST ∧
    (handleHoTTTelemetry sampleEnv
      { initState with rxQueue := [0x80] } 1000).hottRequestBufferPtr = 1 ∧
    (handleHoTTTelemetry sampleEnv (handleHoTTTelemetry sampleEnv
      { initState with rxQueue := [0x80] } 1000) 5200).hottState =
      HOTT_WAITING_FOR_REQUEST ∧
    (handleHoTTTelemetry sampleEnv (handleHoTTTelemetry sampleEnv
      { initState with rxQueue := [0x80] } 1000) 5200).rxQueue = [] ∧
    (handleHoTTTelemetry sampleEnv (handleHoTTTelemetry sampleEnv
      { initState with rxQueue := [0x80] } 1000) 5200).hottTxMsg =
      ({ initState with rxQueue := [0x80] } : HottDriverState).hottTxMsg ∧
    (∀ (s' : HottDriverState) (t' : Nat),
      s'.hottState = HOTT_WAITING_FOR_REQUEST → s'.rxQueue ≠ [] →
      (hottStateStep sampleEnv s' t').1.hottRequestBufferPtr = 0 ∧
      (hottStateStep sampleEnv s' t').1.hottState =
        HOTT_RECEIVING_REQUEST) :=
  claim_C5 sampleEnv _ 0x80 1000 5200 rfl rfl rfl rfl (by decide)

/-- C6 witness: request [0x80, 0x8A] on the sample environment without
GPS returns to Idle-Listening with nothing armed. -/
theorem claim_C6_witness :
    (∀ s₂ : HottDriverState, s₂.textmodeIsAlive = false →
      processBinaryModeRequest sampleEnv s₂ 0x8A = (false, s₂)) ∧
    (handleHoTTTelemetry sampleEnv
      { initState with rxQueue := [0x80, 0x8A] } 100).hottState =
      HOTT_WAITING_FOR_REQUEST ∧
    (handleHoTTTelemetry sampleEnv
      { initState with rxQueue := [0x80, 0x8A] } 100).hottTxMsg =
      ({ initState with rxQueue := [0x80, 0x8A] } :
        HottDriverState).hottTxMsg :=
  claim_C6 sampleEnv _ 0x80 100 rfl rfl rfl (Or.inr rfl) rfl rfl rfl
    (by decide)

/-- C7 witness: the amended round-trip bound evaluated at the concrete
southern-hemisphere coordinate -48.51 degrees. -/
theorem claim_C7_witness :
    |reconMinuteTenThousandths (encodeGpsAxis (-485100000)) -
      ((-485100000 : Int) : ℚ) / 10000000| ≤ 1 / 600000 ∧
    |reconMinuteTenThousandths (encodeGpsAxis (-485100000)) -
      ((-485100000 : Int) : ℚ) / 10000000| ≤ 1 / 360000 ∧
    (encodeGpsAxis (-485100000)).1 = decide ((-485100000 : Int) < 0) :=
  claim_C7 (-485100000) (by decide) (by decide)

/-- C8 witness: with a battery state that is neither WARNING nor
CRITICAL, the double population at concrete inputs is byte-identical. -/
theorem claim_C8_witness :
    (hottPrepareEAMResponse sampleEnv
        (hottPrepareEAMResponse sampleEnv 0 initialiseEAMMessage).2
        (hottPrepareEAMResponse sampleEnv 0 initialiseEAMMessage).1).1 =
      (hottPrepareEAMResponse sampleEnv 0 initialiseEAMMessage).1 :=
  (claim_C8 sampleEnv 0 initialiseEAMMessage).2 (by decide) (by decide)

/-- C9 witness: the amended scenario-A properties evaluated on the
initial driver state and the sample environment (vbat = 1150). -/
theorem claim_C9_witness :
    (handleHoTTTelemetry sampleEnv
      { initState with rxQueue := [0x80, 0x8E] } 10000).hottTxMsg =
      serializeEAM (hottPrepareEAMResponse sampleEnv
        ({ initState with rxQueue := [0x80, 0x8E] } :
          HottDriverState).lastHottAlarmSoundTime
        ({ initState with rxQueue := [0x80, 0x8E] } :
          HottDriverState).hottEAMMessage).1 ∧
    (hottPrepareEAMResponse sampleEnv
      ({ initState with rxQueue := [0x80, 0x8E] } :
        HottDriverState).lastHottAlarmSoundTime
      ({ initState with rxQueue := [0x80, 0x8E] } :
        HottDriverState).hottEAMMessage).1.eam_sensor_id =
      HOTT_TELEMETRY_EAM_SENSOR_ID ∧
    (hottPrepareEAMResponse sampleEnv
      ({ initState with rxQueue := [0x80, 0x8E] } :
        HottDriverState).lastHottAlarmSoundTime
      ({ initState with rxQueue := [0x80, 0x8E] } :
        HottDriverState).hottEAMMessage).1.start_byte = 0x7C ∧
    (hottPrepareEAMResponse sampleEnv
      ({ initState with rxQueue := [0x80, 0x8E] } :
        HottDriverState).lastHottAlarmSoundTime
      ({ initState with rxQueue := [0x80, 0x8E] } :
        HottDriverState).hottEAMMessage).1.stop_byte = 0x7D ∧
    (hottPrepareEAMResponse sampleEnv
      ({ initState with rxQueue := [0x80, 0x8E] } :
        HottDriverState).lastHottAlarmSoundTime
      ({ initState with rxQueue := [0x80, 0x8E] } :
        HottDriverState).hottEAMMessage).1.main_voltage_L +
      256 * (hottPrepareEAMResponse sampleEnv
      ({ initState with rxQueue := [0x80, 0x8E] } :
        HottDriverState).lastHottAlarmSoundTime
      ({ initState with rxQueue := [0x80, 0x8E] } :
        HottDriverState).hottEAMMessage).1.main_voltage_H = 115 ∧
    ((hottPrepareEAMResponse sampleEnv
      ({ initState with rxQueue := [0x80, 0x8E] } :
        HottDriverState).lastHottAlarmSoundTime
      ({ initState with rxQueue := [0x80, 0x8E] } :
        HottDriverState).hottEAMMessage).1.main_voltage_L +
      256 * (hottPrepareEAMResponse sampleEnv
      ({ initState with rxQueue := [0x80, 0x8E] } :
        HottDriverState).lastHottAlarmSoundTime
      ({ initState with rxQueue := [0x80, 0x8E] } :
        HottDriverState).hottEAMMessage).1.main_voltage_H) * 10 =
      sampleEnv.vbat :=
  claim_C9 sampleEnv _ 0x80 10000 rfl rfl rfl (Or.inr rfl) rfl (by decide)
    rfl rfl rfl rfl

/-- C10 witness: out-of-range write at column 25 is a no-op, and an
in-range write at column 5, row 3 changes no other cell. -/
theorem claim_C10_witness :
    (hottTextmodeWriteChar 25 3 65 initialiseTextmodeMessage =
      initialiseTextmodeMessage) ∧
    ((hottTextmodeWriteChar 5 3 65 initialiseTextmodeMessage).start =
      initialiseTextmodeMessage.start ∧
     (hottTextmodeWriteChar 5 3 65 initialiseTextmodeMessage).esc =
      initialiseTextmodeMessage.esc ∧
     (hottTextmodeWriteChar 5 3 65 initialiseTextmodeMessage).warning =
      initialiseTextmodeMessage.warning ∧
     (hottTextmodeWriteChar 5 3 65 initialiseTextmodeMessage).stop =
      initialiseTextmodeMessage.stop ∧
     ∀ r cc : Nat, ¬(r = 3 ∧ cc = 5) →
      (((hottTextmodeWriteChar 5 3 65 initialiseTextmodeMessage).txt.getD
        r []).getD cc 0 : Nat) =
      ((initialiseTextmodeMessage.txt.getD r []).getD cc 0 : Nat)) :=
  ⟨claim_C10.1 25 3 65 initialiseTextmodeMessage (by decide),
   claim_C10.2 5 3 65 initialiseTextmodeMessage (by decide) (by decide)⟩

end Hott
